import Mathlib

/-!
A verification development for the retrieval and indexing subsystem of a
banking retrieval-augmented generation (RAG) service.

The model is a shallow embedding of `src/core/rag_service.py`
(class `BankingRAGService`), `src/models/banking_models.py` (the
`BankingDocument` and `RetrievalResult` dataclasses) and
`src/models/knowledge_base.py` (`get_banking_knowledge_base`).

Modelling conventions:
* Python strings are `String` / `List Char`; Python floats are `ℚ`
  (the lexical-ranker weights 2.0, 0.5, 0.2, 3.0, 1.5 and their sums are
  exactly representable, and the orderings proved below are not affected
  by the float/rational difference on the concrete data used).
* Embedding vectors are an abstract type `V`.  The numeric content of a
  vector never decides any statement proved here, only *which* vector is
  stored where; the provider, the deterministic mock-embedding stream
  (`np.random.seed(42)` makes it a fixed stream), L2-normalisation
  (`v / (norm v + 1e-8)`) and the inner product are abstract parameters.
* The FAISS flat inner-product index is modelled as the list of vectors it
  stores.  Its `search` is modelled from its documented library contract:
  top-`k` by inner product, sorted descending (ties by ascending
  position), padded with label `-1` and the lowest representable score
  when fewer than `k` entries exist.
* Fallible Python code is modelled with `Except` / explicit result pairs;
  `try/except` blocks become case splits on those results.
-/

namespace BankingRAG

/-! ## String primitives (Python `str` operations used by the service) -/

/-- The character set of Python `word.strip('.,!?;:()[]\x7b\x7d')` in
`_mock_retrieval`. -/
def stripSet : List Char :=
  ['.', ',', '!', '?', ';', ':', '(', ')', '[', ']', '\x7b', '\x7d']

/-- Membership in `stripSet`. -/
def isStripChar (c : Char) : Bool := stripSet.contains c

/-- Python `w.strip('.,!?;:()[]\x7b\x7d')`: remove the characters of the set
from both ends. -/
def stripPunct (w : List Char) : List Char :=
  ((w.dropWhile isStripChar).reverse.dropWhile isStripChar).reverse

/-- Python `s.lower()` as a character list (the corpus is ASCII). -/
def lowerStr (s : String) : List Char := s.toList.map Char.toLower

/-- Helper for `splitWs`: accumulates the current word (reversed). -/
def splitWsAux : List Char → List Char → List (List Char)
  | [], acc => if acc.isEmpty then [] else [acc.reverse]
  | c :: cs, acc =>
    if c.isWhitespace then
      if acc.isEmpty then splitWsAux cs [] else acc.reverse :: splitWsAux cs []
    else splitWsAux cs (c :: acc)

/-- Python `s.split()` with no argument: split on whitespace runs, dropping
empty pieces. -/
def splitWs (s : List Char) : List (List Char) := splitWsAux s []

/-- Does `s` start with `pat`? (Python slice comparison.) -/
def startsWithB : List Char → List Char → Bool
  | [], _ => true
  | _ :: _, [] => false
  | a :: pat, b :: s => a == b && startsWithB pat s

/-- Python `pat in s`: substring containment. -/
def substrB (pat : List Char) : List Char → Bool
  | [] => pat.isEmpty
  | c :: cs => startsWithB pat (c :: cs) || substrB pat cs

/-- Helper for `countOccur`: while `skip > 0` the scanner is still inside a
previous match and only advances. -/
def countOccurAux (pat : List Char) : List Char → Nat → Nat
  | [], _ => 0
  | _ :: cs, skip + 1 => countOccurAux pat cs skip
  | c :: cs, 0 =>
    if pat.isEmpty then 0
    else if startsWithB pat (c :: cs) then
      1 + countOccurAux pat cs (pat.length - 1)
    else
      countOccurAux pat cs 0

/-- Python `s.count(pat)` for nonempty `pat`: non-overlapping occurrences,
scanning left to right.  (`_mock_retrieval` only calls it with words of
length > 2, so the empty-pattern case is fixed to 0.) -/
def countOccur (pat l : List Char) : Nat := countOccurAux pat l 0

/-! ## Data model (`banking_models.py`) -/

/-- The `BankingDocument` dataclass.  `V` is the abstract embedding-vector
type; `embedding` is `Optional[np.ndarray]`, `date_added` is
`Optional[str]`. -/
structure BankingDocument (V : Type) where
  id : String
  title : String
  content : String
  category : String
  source : String
  embedding : Option V := none
  date_added : Option String := none
  deriving DecidableEq

/-- The `RetrievalResult` dataclass: a retrieved document with its
relevance score and 1-based rank. -/
structure RetrievalResult (V : Type) where
  document : BankingDocument V
  relevance_score : ℚ
  rank : Nat
  deriving DecidableEq

/-- The mutable state of `BankingRAGService` that the retrieval/indexing
subsystem reads and writes: `self.documents`, `self.index` (`None` until a
FAISS index object exists; the index itself is the ordered list of stored
vectors) and `self.is_initialized`. -/
structure RAGState (V : Type) where
  documents : List (BankingDocument V)
  index : Option (List V)
  initDone : Bool
  deriving DecidableEq

/-! ## The lexical fallback ranker (`_mock_retrieval`) -/

/-- The fixed `banking_terms` synonym table of `_mock_retrieval`, verbatim
in source order.  Only the term lists are consulted by the scoring loop;
the keys are carried for fidelity. -/
def bankingTerms : List (String × List String) :=
  [("loan", ["loan", "lending", "credit", "financing", "borrow"]),
   ("auto", ["auto", "car", "vehicle", "automotive"]),
   ("home", ["home", "house", "property", "real estate", "mortgage"]),
   ("heloc", ["heloc", "equity", "line of credit"]),
   ("student", ["student", "education", "college", "school"]),
   ("youth", ["youth", "young", "teen", "student"]),
   ("business", ["business", "commercial", "corporate"]),
   ("senior", ["senior", "elderly", "retirement"]),
   ("investment", ["investment", "portfolio", "wealth"]),
   ("digital", ["digital", "online", "mobile", "app"]),
   ("insurance", ["insurance", "protection", "coverage"]),
   ("international", ["international", "foreign", "global"])]

/-- Python
`[w.strip(punct) for w in query.lower().split() if len(w.strip(punct)) > 2]`:
the comprehension filters on the stripped word and yields the stripped
word. -/
def tokenizeQuery (query : String) : List (List Char) :=
  ((splitWs (lowerStr query)).filter
    (fun w => 2 < (stripPunct w).length)).map stripPunct

/-- One query word's contribution from the first scoring loop of
`_mock_retrieval`: +2.0 on a title substring match, +0.5 per content
occurrence, and for words longer than 4 characters +0.2 per content word
related by substring containment in either direction. -/
def titleContentScore (contentL titleL : List Char) (w : List Char) : ℚ :=
  (if substrB w titleL then 2 else 0)
    + (countOccur w contentL : ℚ) * (1 / 2)
    + (if 4 < w.length then
        ((splitWs contentL).map
          (fun cw => if substrB w cw || substrB cw w then (1 / 5 : ℚ) else 0)).sum
      else 0)

/-- One query word's contribution from the category loop of
`_mock_retrieval`: +3.0 when the word is a substring of the lowercased
category. -/
def categoryScoreW (catL : List Char) (w : List Char) : ℚ :=
  if substrB w catL then 3 else 0

/-- One query word's contribution from the `banking_terms` loop of
`_mock_retrieval`: for every table row whose term list contains the word
exactly, +1.5 per term of that row occurring as a substring of the
lowercased content or title. -/
def synonymScoreW (contentL titleL : List Char) (w : List Char) : ℚ :=
  (bankingTerms.map (fun row =>
    if (row.2.map String.toList).contains w then
      ((row.2.map String.toList).map
        (fun t => if substrB t contentL || substrB t titleL then (3 / 2 : ℚ) else 0)).sum
    else 0)).sum

/-- The raw keyword score one document accumulates in `_mock_retrieval`,
summing the three scoring loops in source order. -/
def docScore {V : Type} (qws : List (List Char)) (doc : BankingDocument V) : ℚ :=
  (qws.map (titleContentScore (lowerStr doc.content) (lowerStr doc.title))).sum
    + (qws.map (categoryScoreW (lowerStr doc.category))).sum
    + (qws.map (synonymScoreW (lowerStr doc.content) (lowerStr doc.title))).sum

/-- Stable insertion step for a descending sort: the new element goes after
every element whose key is greater than or equal to its own. -/
def insertDesc {α : Type} (key : α → ℚ) (x : α) : List α → List α
  | [] => [x]
  | y :: ys => if key x ≤ key y then y :: insertDesc key x ys else x :: y :: ys

/-- Python `list.sort(key=…, reverse=True)`: stable sort, descending in the
key.  Elements are inserted in original order, each after all
equal-keyed elements already placed, which is exactly CPython's stable
descending order. -/
def sortByDesc {α : Type} (key : α → ℚ) (l : List α) : List α :=
  l.foldl (fun acc x => insertDesc key x acc) []

/-- `BankingRAGService._mock_retrieval`: the keyword/substring fallback
ranker.  Scores every document, keeps scores strictly above zero with the
normalized, clamped score, sorts stably descending, takes `top_k` and
assigns 1-based ranks. -/
def mock_retrieval {V : Type} (docs : List (BankingDocument V)) (query : String)
    (top_k : Nat) : List (RetrievalResult V) :=
  let qws := tokenizeQuery query
  let scored := docs.filterMap (fun doc =>
    let score := docScore qws doc
    if 0 < score then
      some (doc,
        if 0 < (qws.length : ℚ) * 3 then
          min (score / ((qws.length : ℚ) * 3)) 1
        else 0)
    else none)
  let sorted := sortByDesc (fun p => p.2) scored
  (sorted.take top_k).enum.map (fun p => ⟨p.2.1, p.2.2, p.1 + 1⟩)

/-! ## The banking knowledge base (`knowledge_base.py`) -/

/-- `get_banking_knowledge_base()`: the fixed 26-document corpus, in
source order, every document with `embedding = None` and no
`date_added`. -/
def knowledgeBase (V : Type) : List (BankingDocument V) :=
  [⟨"doc_001",
    "Personal Loan Requirements",
    "Personal loan requirements include: minimum age of 21 years, maximum age of 65 years at loan maturity, minimum monthly income of $3,000, employment history of at least 2 years, good credit score (minimum 650), debt-to-income ratio below 40%, valid identification documents, proof of income (pay stubs, tax returns), and bank statements for the last 6 months. Loan amounts range from $1,000 to $100,000 with terms from 12 to 84 months. Interest rates vary based on creditworthiness, typically ranging from 5.99% to 24.99% APR.",
    "loans", "lending_policies.pdf", none, none⟩,
   ⟨"doc_002",
    "Savings Account Features and Benefits",
    "Our savings accounts offer competitive interest rates, no monthly maintenance fees with minimum balance of $100, online and mobile banking access, ATM network access at 60,000+ locations nationwide, FDIC insurance up to $250,000 per depositor, automatic savings programs, direct deposit capabilities, and 24/7 customer service. Premium savings accounts require $10,000 minimum balance and offer higher interest rates, relationship banking benefits, and waived fees on other services.",
    "accounts", "product_guide.pdf", none, none⟩,
   ⟨"doc_003",
    "Credit Card Application Process",
    "Credit card application process: complete online application with personal information, employment details, and financial information. Required documents include valid government-issued ID, Social Security number, proof of income, and employment verification. Processing time is typically 7-10 business days. Approval factors include credit score (minimum 600 for basic cards, 700+ for premium cards), income verification, debt-to-income ratio, and credit history length. New cardholders receive welcome bonuses, 0% introductory APR for 12 months, and fraud protection.",
    "credit", "credit_policies.pdf", none, none⟩,
   ⟨"doc_004",
    "Investment Account Options",
    "Investment account options include Individual Retirement Accounts (IRA), Roth IRA, 401(k) rollovers, brokerage accounts, mutual funds, ETFs, and certificate of deposits. Minimum opening deposits vary: $500 for IRAs, $1,000 for brokerage accounts, $100 for CDs. Investment advisory services available with certified financial planners. Risk assessment and portfolio recommendations based on age, income, and retirement goals. Online trading platform with research tools, market analysis, and educational resources.",
    "investments", "investment_guide.pdf", none, none⟩,
   ⟨"doc_005",
    "Mobile Banking Security Features",
    "Mobile banking security includes multi-factor authentication, biometric login (fingerprint, face ID), 256-bit SSL encryption, real-time fraud monitoring, transaction alerts, device registration, session timeout, and secure messaging. Additional features: mobile check deposit, bill pay, account transfers, ATM locator, spending categorization, and budget tracking. Security tips: use strong passwords, enable automatic app updates, avoid public Wi-Fi for banking, and report suspicious activity immediately.",
    "security", "security_manual.pdf", none, none⟩,
   ⟨"doc_006",
    "Mortgage Loan Process and Requirements",
    "Mortgage loan process: pre-qualification, application submission, documentation review, property appraisal, underwriting, and closing. Required documents include income verification (W-2s, pay stubs, tax returns), bank statements, credit reports, employment verification, and property documentation. Down payment requirements: conventional loans 5-20%, FHA loans 3.5%, VA loans 0%. Loan terms: 15, 20, or 30 years. Interest rates based on credit score, down payment, and market conditions. Closing costs typically 2-5% of loan amount.",
    "loans", "mortgage_guidelines.pdf", none, none⟩,
   ⟨"doc_007",
    "Business Banking Services",
    "Business banking services include business checking accounts, savings accounts, credit lines, merchant services, payroll processing, and cash management solutions. Account requirements: business license, EIN number, articles of incorporation, and business plan. Features: online banking, mobile deposits, wire transfers, ACH processing, and dedicated relationship managers. Loan products: equipment financing, working capital loans, SBA loans, and commercial real estate financing. Treasury management services for larger businesses.",
    "business", "business_services.pdf", none, none⟩,
   ⟨"doc_008",
    "Federal Banking Regulations and Compliance",
    "Key federal banking regulations include FDIC insurance requirements, Truth in Lending Act (TILA), Fair Credit Reporting Act (FCRA), Equal Credit Opportunity Act (ECOA), Bank Secrecy Act (BSA), and Anti-Money Laundering (AML) requirements. Customer identification programs (CIP) required for new accounts. Privacy notices under Gramm-Leach-Bliley Act. Regulation E covers electronic fund transfers. Regulation Z implements TILA for credit disclosures. Compliance monitoring and reporting requirements for suspicious activities.",
    "regulations", "compliance_manual.pdf", none, none⟩,
   ⟨"doc_009",
    "Interest Rates and Fee Structure",
    "Current interest rates: savings accounts 0.50%-2.50% APY, money market accounts 1.00%-3.00% APY, CDs 1.50%-4.50% APY based on term length. Loan rates: personal loans 5.99%-24.99% APR, auto loans 3.49%-15.99% APR, mortgages 6.25%-8.75% APR. Fee structure: overdraft fees $35, ATM fees $3 (out-of-network), wire transfer fees $25 domestic/$50 international, stop payment fees $30, account closure fees $25 (within 90 days).",
    "rates", "rate_sheet.pdf", none, none⟩,
   ⟨"doc_010",
    "Customer Service and Support Channels",
    "Customer service available through multiple channels: 24/7 phone support, online chat, email support, branch locations, and mobile app messaging. Specialized support teams for different services: mortgage specialists, investment advisors, business banking experts, and fraud prevention team. Self-service options: online banking, mobile app, ATM network, and FAQ resources. Response times: phone calls answered within 2 minutes, chat within 1 minute, emails within 24 hours. Customer satisfaction ratings and feedback programs.",
    "support", "service_standards.pdf", none, none⟩,
   ⟨"doc_011",
    "Cryptocurrency and Digital Asset Services",
    "Our bank now offers cryptocurrency services including Bitcoin and Ethereum trading, digital wallet management, and blockchain-based transactions. Services include: cryptocurrency buying/selling with competitive rates, secure digital wallet storage, integration with traditional banking accounts, regulatory compliance with federal guidelines, and educational resources about digital assets. Minimum investment is $100, with transaction fees of 1.5%. Available through our mobile app and online banking platform. All cryptocurrency transactions are FDIC-insured up to regulatory limits.",
    "digital", "crypto_services.pdf", none, none⟩,
   ⟨"personal_loan_guide",
    "Personal Loan Requirements and Application Process",
    "Personal Loan Requirements: Minimum age 21 years, minimum credit score 650, annual income of $30,000+, debt-to-income ratio below 40%, US citizenship or permanent residency required. Employment verification needed with 2+ years stable employment history. Required documents include: government-issued ID, Social Security card, proof of income (pay stubs, tax returns), bank statements from last 3 months, employment verification letter. Loan amounts range from $5,000 to $50,000 with terms of 2-7 years. Interest rates from 6.99% to 24.99% APR based on creditworthiness. No collateral required. Application can be completed online, by phone, or in-branch. Processing time 1-3 business days for approval, funding within 24 hours of approval. No prepayment penalties. Late payment fee $25. Origination fee 1-5% of loan amount depending on credit profile.",
    "loans", "personal_loan_guide.pdf", none, none⟩,
   ⟨"doc_012",
    "Comprehensive Financial Planning Services",
    "Financial planning services include retirement planning, college savings plans (529 plans), estate planning, tax optimization strategies, and wealth management. Our certified financial planners provide personalized consultations, portfolio analysis, risk assessment, and long-term financial goal setting. Services available for accounts with $50,000+ balance. Planning fees: $200 initial consultation, $150/hour ongoing advisory. Includes annual portfolio review, tax planning strategies, insurance analysis, and beneficiary planning.",
    "planning", "financial_planning.pdf", none, none⟩,
   ⟨"doc_013",
    "Small Business Loan Programs",
    "Small business loan programs include SBA 7(a) loans up to $5 million, SBA microloans up to $50,000, equipment financing, commercial real estate loans, and business lines of credit. Requirements: business plan, financial statements, personal guarantee, collateral (varies by loan type), good credit score (680+), and business operating for 2+ years. Interest rates range from 5.5% to 12% based on loan type and creditworthiness. Application process includes business evaluation, financial analysis, and approval timeline of 30-45 days.",
    "business", "sba_loan_guide.pdf", none, none⟩,
   ⟨"doc_014",
    "Wealth Management and Private Banking",
    "Private banking services for high-net-worth clients with $1 million+ in assets. Services include dedicated relationship managers, customized investment portfolios, estate planning, tax strategies, trust services, and exclusive banking benefits. Investment options: alternative investments, hedge funds, private equity, real estate investment trusts (REITs), and international markets. Additional perks: priority customer service, waived fees, exclusive events, and concierge services. Minimum account balance requirements and fee structures vary by service level.",
    "wealth", "private_banking_guide.pdf", none, none⟩,
   ⟨"doc_015",
    "Online and Mobile Banking Features",
    "Digital banking platform features: account management, bill pay, money transfers, mobile check deposit, budgeting tools, spending alerts, and financial insights. Advanced features: scheduled payments, recurring transfers, account aggregation, goal tracking, and expense categorization. Security features: two-factor authentication, biometric login, transaction monitoring, and fraud alerts. Customer support through chat, video calls, and screen sharing. Available 24/7 with offline capabilities for account viewing.",
    "digital", "digital_banking_guide.pdf", none, none⟩,
   ⟨"doc_016",
    "Auto Loan Financing Options",
    "Auto loan financing available for new and used vehicles. New car loans: rates from 3.99% to 8.99% APR, terms up to 84 months, up to 100% financing available. Used car loans: rates from 4.99% to 12.99% APR, terms up to 72 months, vehicles up to 7 years old eligible. Required documents: proof of income, insurance coverage, vehicle information, and driver's license. Pre-approval available online. Loan amounts from $5,000 to $100,000. No prepayment penalties. Gap insurance and extended warranty options available.",
    "loans", "auto_loan_guide.pdf", none, none⟩,
   ⟨"doc_017",
    "Home Equity Line of Credit (HELOC)",
    "Home Equity Line of Credit provides flexible access to your home's equity. Credit limits up to 80% of home value minus existing mortgage balance. Variable interest rates starting at Prime + 0.5%. Draw period: 10 years with interest-only payments. Repayment period: 15 years with principal and interest payments. No closing costs on lines up to $250,000. Uses include home improvements, debt consolidation, education expenses, and major purchases. Required: home appraisal, income verification, and good credit score (720+).",
    "loans", "heloc_guide.pdf", none, none⟩,
   ⟨"doc_018",
    "Student Loan Services and Refinancing",
    "Student loan services include federal loan servicing, private student loans, and refinancing options. Private loans: competitive rates, flexible repayment terms, no origination fees, and cosigner release options. Refinancing benefits: potentially lower rates, simplified payments, and flexible terms. Eligibility: good credit score, stable income, and graduation from eligible institution. Student checking accounts with no monthly fees, overdraft protection, and financial literacy resources. Parent PLUS loan alternatives available.",
    "loans", "student_loan_services.pdf", none, none⟩,
   ⟨"doc_019",
    "Foreign Exchange and International Banking",
    "International banking services include foreign exchange, wire transfers, international trade finance, and multi-currency accounts. Foreign exchange: competitive rates for 50+ currencies, online rate calculator, and currency delivery services. International wire transfers: same-day processing, competitive fees, and real-time tracking. Services for expatriates: international account access, global ATM network, and cross-border investment options. Trade finance: letters of credit, documentary collections, and export financing.",
    "international", "international_services.pdf", none, none⟩,
   ⟨"doc_020",
    "Insurance Products and Protection Services",
    "Insurance products available through banking partnerships: life insurance, disability insurance, home insurance, auto insurance, and identity theft protection. Life insurance options: term life, whole life, and universal life policies. Disability insurance: short-term and long-term coverage for income protection. Identity theft protection includes credit monitoring, fraud alerts, and resolution services. Insurance premium financing available. Bundled packages offer discounts when combined with banking services.",
    "insurance", "insurance_products.pdf", none, none⟩,
   ⟨"doc_021",
    "ATM and Branch Network Services",
    "Extensive ATM network with 75,000+ locations nationwide and international access. Branch services: personal banker consultations, safe deposit boxes, notary services, and cashier's checks. ATM services: cash withdrawal, deposits, balance inquiries, mini-statements, and cardless access via mobile app. International ATM access in 200+ countries. ATM fees: free at network locations, $3 fee for out-of-network usage with reimbursement programs for premium accounts. Extended branch hours and weekend availability at select locations.",
    "services", "branch_atm_guide.pdf", none, none⟩,
   ⟨"doc_022",
    "Credit Building and Repair Services",
    "Credit building services include secured credit cards, credit monitoring, and financial education programs. Secured credit card: $200-$5,000 credit limit based on deposit, graduates to unsecured card after 12 months of good payment history. Credit monitoring: free credit scores, alerts for changes, and identity monitoring. Credit repair consultations available with certified counselors. Financial literacy workshops covering budgeting, credit management, and debt reduction strategies. Young adult programs for building first-time credit.",
    "credit", "credit_building_guide.pdf", none, none⟩,
   ⟨"doc_023",
    "Senior Banking Services and Benefits",
    "Senior banking services for customers 65+: free checking accounts, enhanced fraud protection, large-font statements, and dedicated customer service. Additional benefits: waived fees on cashier's checks, money orders, and safe deposit boxes. Investment services: conservative portfolio options, income-focused strategies, and estate planning assistance. Health Savings Account (HSA) management for medical expenses. Senior discounts on loan rates and insurance products. Educational seminars on retirement planning and Medicare supplements.",
    "senior", "senior_services_guide.pdf", none, none⟩,
   ⟨"doc_024",
    "Environmental and Sustainable Banking",
    "Sustainable banking initiatives include paperless statements, carbon-neutral operations, and green financing options. Green loans: energy-efficient home improvements, solar panel financing, and electric vehicle loans with reduced rates. Environmental impact: renewable energy investments, sustainable business lending, and carbon offset programs. Electronic services: mobile banking, online bill pay, and digital documents to reduce paper usage. Community investments in renewable energy projects and environmental conservation programs.",
    "sustainability", "green_banking_guide.pdf", none, none⟩,
   ⟨"doc_025",
    "Youth and Student Banking Programs",
    "Youth banking programs for ages 13-24: free checking and savings accounts, financial literacy education, and scholarship opportunities. Student accounts: no monthly fees, free ATM access, overdraft forgiveness, and budgeting tools. Youth savings accounts with competitive rates and goal-setting features. Parent-child joint accounts with spending controls and monitoring. Educational resources: online financial courses, budgeting apps, and money management workshops. College banking packages with special rates and services.",
    "youth", "youth_banking_guide.pdf", none, none⟩]

/-! ## The service operations (`rag_service.py`)

The external collaborators appear as parameters:
* `client` — whether `_setup_client` produced an Azure OpenAI client;
* `apiEmbedOne` — the provider's embedding of one text, `none` when the
  provider call raises (a whole-batch failure maps every text to `none`);
* `mockStream` — the deterministic mock-embedding stream
  (`np.random.seed(42)` is reset on every `_generate_mock_embeddings`
  call, so the i-th mock vector of any call is a fixed function of i);
* `normalize` — `v / (np.linalg.norm(v) + 1e-8)`;
* `dot` — the raw inner product used by the flat FAISS index.
-/

/-- `_generate_mock_embeddings(count)`: the first `count` vectors of the
fixed mock stream. -/
def mockEmbeddings {V : Type} (mockStream : Nat → V) (count : Nat) : List V :=
  (List.range count).map mockStream

/-- `_generate_embeddings(texts)`: with no client, mock embeddings; with a
client, the provider's embeddings, falling back to mock embeddings when
the provider raises.  This function never raises. -/
def generateEmbeddings {V : Type} (client : Bool) (apiEmbedOne : String → Option V)
    (mockStream : Nat → V) (texts : List String) : List V :=
  if client then
    match texts.mapM apiEmbedOne with
    | some es => es
    | none => mockEmbeddings mockStream texts.length
  else mockEmbeddings mockStream texts.length

/-- `_save_index()`: persistence is best-effort and failures are swallowed,
so it does not affect the in-memory state modelled here. -/
def save_index {V : Type} (st : RAGState V) : RAGState V := st

/-- `_create_vector_index()`: raises `ValueError` when there are no
documents; otherwise re-embeds every document content, stores the raw
embeddings on the documents, and replaces the index with a fresh one
holding the normalized vectors in document order. -/
def create_vector_index {V : Type} (client : Bool) (apiEmbedOne : String → Option V)
    (mockStream : Nat → V) (normalize : V → V) (st : RAGState V) :
    Except String (RAGState V) :=
  if st.documents.isEmpty then .error "No documents to index"
  else
    let embs := generateEmbeddings client apiEmbedOne mockStream
      (st.documents.map (fun d => d.content))
    let docs' := st.documents.zipWith (fun d e => {d with embedding := some e}) embs
    .ok {st with documents := docs', index := some (embs.map normalize)}

/-- `initialize()` on a fresh deployment (no persisted artifacts to load):
create the knowledge base, create the vector index, save, and mark the
service initialized.  The error branch is unreachable because the
knowledge base is nonempty. -/
def initService (V : Type) (client : Bool) (apiEmbedOne : String → Option V)
    (mockStream : Nat → V) (normalize : V → V) : RAGState V :=
  let st₀ : RAGState V := ⟨knowledgeBase V, none, false⟩
  match create_vector_index client apiEmbedOne mockStream normalize st₀ with
  | .ok st₁ => {save_index st₁ with initDone := true}
  | .error _ => {st₀ with initDone := true}

/-- `add_document(document)`: duplicate ids are rejected with `False`;
otherwise the document is embedded (`_generate_embeddings` never raises),
appended to the store, its normalized vector appended to the index when
one exists, and the state saved.  The `[]` branch mirrors the
`embeddings[0]` IndexError being caught by the surrounding `except`
(unreachable: one embedding is returned per text). -/
def add_document {V : Type} (client : Bool) (apiEmbedOne : String → Option V)
    (mockStream : Nat → V) (normalize : V → V) (st : RAGState V)
    (document : BankingDocument V) : Bool × RAGState V :=
  if (st.documents.map (fun d => d.id)).contains document.id then (false, st)
  else
    match generateEmbeddings client apiEmbedOne mockStream [document.content] with
    | [] => (false, st)
    | e :: _ =>
      let doc' := {document with embedding := some e}
      let docs' := st.documents ++ [doc']
      match st.index with
      | some vs =>
        (true, save_index {st with documents := docs', index := some (vs ++ [normalize e])})
      | none => (true, save_index {st with documents := docs'})

/-- `remove_document(document_id)`: returns `False` when no document has
the id; otherwise pops the document and rebuilds the whole index via
`_create_vector_index`.  When that rebuild raises (store emptied), the
`except` catches it and returns `False` — with the document already
popped and the old index still in place. -/
def remove_document {V : Type} (client : Bool) (apiEmbedOne : String → Option V)
    (mockStream : Nat → V) (normalize : V → V) (st : RAGState V)
    (document_id : String) : Bool × RAGState V :=
  match st.documents.findIdx? (fun d => d.id == document_id) with
  | none => (false, st)
  | some i =>
    let st₁ := {st with documents := st.documents.eraseIdx i}
    match create_vector_index client apiEmbedOne mockStream normalize st₁ with
    | .ok st₂ => (true, save_index st₂)
    | .error _ => (false, st₁)

/-- The `zip(documents_to_reembed, new_embeddings)` mutation of
`rebuild_index`: attach the embeddings, in order, to the documents that
lack one. -/
def attachEmbeddings {V : Type} :
    List (BankingDocument V) → List V → List (BankingDocument V)
  | [], _ => []
  | d :: ds, es =>
    match d.embedding with
    | some _ => d :: attachEmbeddings ds es
    | none =>
      match es with
      | [] => d :: attachEmbeddings ds []
      | e :: es' => {d with embedding := some e} :: attachEmbeddings ds es'

/-- The `embeddings_to_add` collection loop of `rebuild_index`: walk the
store, re-embedding any document still lacking an embedding, and collect
the final documents together with their raw embeddings.  The skip branch
mirrors an `embeddings[0]` IndexError (unreachable). -/
def collectEmbeddings {V : Type} (client : Bool) (apiEmbedOne : String → Option V)
    (mockStream : Nat → V) :
    List (BankingDocument V) → List (BankingDocument V) × List V
  | [] => ([], [])
  | d :: ds =>
    match d.embedding with
    | some e =>
      let r := collectEmbeddings client apiEmbedOne mockStream ds
      (d :: r.1, e :: r.2)
    | none =>
      match generateEmbeddings client apiEmbedOne mockStream [d.content] with
      | [] =>
        let r := collectEmbeddings client apiEmbedOne mockStream ds
        (d :: r.1, r.2)
      | e :: _ =>
        let r := collectEmbeddings client apiEmbedOne mockStream ds
        ({d with embedding := some e} :: r.1, e :: r.2)

/-- `rebuild_index()`: reloads the knowledge base into `self.documents`
*first*, then computes `existing_docs` from the just-reloaded list (hence
always empty), re-embeds every document lacking an embedding, recreates
the index and adds the normalized vectors in store order, then saves. -/
def rebuild_index {V : Type} (client : Bool) (apiEmbedOne : String → Option V)
    (mockStream : Nat → V) (normalize : V → V) (st : RAGState V) : RAGState V :=
  let documents₀ : List (BankingDocument V) := knowledgeBase V
  let existing := documents₀.filter
    (fun d => !(((knowledgeBase V).map (fun k => k.id)).contains d.id))
  let allDocs := knowledgeBase V ++ existing
  let toReembed := allDocs.filter (fun d => d.embedding.isNone)
  let newEmbs := generateEmbeddings client apiEmbedOne mockStream
    (toReembed.map (fun d => d.content))
  let docs₁ := attachEmbeddings allDocs newEmbs
  let pairs := collectEmbeddings client apiEmbedOne mockStream docs₁
  save_index {st with documents := pairs.1, index := some (pairs.2.map normalize)}

/-! ## Retrieval (`retrieve_documents`) -/

/-- The FLT_MAX-magnitude negative score FAISS places in padded "no match"
slots. -/
def sentinelScore : ℚ := -(34028235 * 10 ^ 31)

/-- Modelled from the spec: the FAISS `IndexFlatIP.search` library contract
(§4.1) — the k highest inner-product matches as (score, label) slots
sorted descending by score with ties broken by ascending position; when
the index holds fewer than `k` entries the remaining slots are padded
with the "no match" sentinel, which for the real library is label `-1`
and a lowest-float score. -/
def searchIP {V : Type} (dot : V → V → ℚ) (index : List V) (q : V) (k : Nat) :
    List (ℚ × Int) :=
  let scored := index.enum.map (fun p => (dot q p.2, (p.1 : Int)))
  let top := (sortByDesc (fun s => s.1) scored).take k
  top ++ List.replicate (k - top.length) (sentinelScore, -1)

/-- Python list indexing `l[i]` with negative-index wraparound; `none` is
an `IndexError`. -/
def pyGet {α : Type} (l : List α) (i : Int) : Option α :=
  if 0 ≤ i then l.get? i.toNat
  else if i + l.length < 0 then none
  else l.get? (i + l.length).toNat

/-- The result-assembly loop of `retrieve_documents`: slot `i` is kept when
`doc_idx < len(documents)` (note a negative FAISS sentinel label passes
this test and indexes from the back), and constructing a
`RetrievalResult` validates `0.0 <= relevance_score <= 1.0`, raising
`ValueError` otherwise; any raise aborts the whole loop. -/
def buildResults {V : Type} (docs : List (BankingDocument V)) :
    List (ℚ × Int) → Nat → Except String (List (RetrievalResult V))
  | [], _ => .ok []
  | (sim, idx) :: rest, i =>
    if idx < (docs.length : Int) then
      match pyGet docs idx with
      | none => .error "IndexError"
      | some d =>
        if 0 ≤ sim ∧ sim ≤ 1 then
          match buildResults docs rest (i + 1) with
          | .ok rs => .ok (⟨d, sim, i + 1⟩ :: rs)
          | .error e => .error e
        else .error "Relevance score must be between 0.0 and 1.0"
    else buildResults docs rest (i + 1)

/-- `retrieve_documents(query, top_k)`: raises `ValueError` unless the
service is initialized with an index present; with no client, the lexical
fallback; otherwise embed the query (provider failure silently yields a
mock query vector inside `_generate_embeddings`), normalize, search, and
assemble results — any exception in that block falls back to
`_mock_retrieval`. -/
def retrieve_documents {V : Type} (client : Bool) (apiEmbedOne : String → Option V)
    (mockStream : Nat → V) (normalize : V → V) (dot : V → V → ℚ)
    (st : RAGState V) (query : String) (top_k : Nat) :
    Except String (List (RetrievalResult V)) :=
  match st.index with
  | none => .error "Service not initialized"
  | some idx =>
    if !st.initDone then .error "Service not initialized"
    else if !client then .ok (mock_retrieval st.documents query top_k)
    else
      match generateEmbeddings client apiEmbedOne mockStream [query] with
      | [] => .ok (mock_retrieval st.documents query top_k)
      | qe :: _ =>
        match buildResults st.documents (searchIP dot idx (normalize qe) top_k) 0 with
        | .ok rs => .ok rs
        | .error _ => .ok (mock_retrieval st.documents query top_k)

/-! ## Spec-side renderings

These definitions follow the *specification's words* (spec §4.2 step 3–4),
to be compared with the source-derived definitions above. -/

/-- Spec wording: "tokenize the query into lowercase words of length > 2,
stripped of surrounding punctuation". -/
def specTokenize (query : String) : List (List Char) :=
  ((splitWs (lowerStr query)).map stripPunct).filter (fun w => 2 < w.length)

/-- Spec wording: "+2.0 per query word found as a substring of the
title". -/
def specTitleScore (qws : List (List Char)) (titleL : List Char) : ℚ :=
  2 * ((qws.filter (fun w => substrB w titleL)).length : ℚ)

/-- Spec wording: "+0.5 × occurrence-count per query word found in
content". -/
def specContentScore (qws : List (List Char)) (contentL : List Char) : ℚ :=
  (1 / 2) * ((qws.map (fun w => (countOccur w contentL : ℚ))).sum)

/-- Spec wording: "+0.2 for each content word that is a
substring-superset/subset match of a query word longer than 4
characters". -/
def specPartialScore (qws : List (List Char)) (contentL : List Char) : ℚ :=
  (1 / 5) * ((qws.map (fun w =>
    if 4 < w.length then
      (((splitWs contentL).filter (fun cw => substrB w cw || substrB cw w)).length : ℚ)
    else 0)).sum)

/-- Spec wording: "+3.0 per query word that is a substring of the
category". -/
def specCategoryScore (qws : List (List Char)) (catL : List Char) : ℚ :=
  3 * ((qws.filter (fun w => substrB w catL)).length : ℚ)

/-- Spec wording: "+1.5 for every matched entry in a fixed synonym table
… where either the query word or a synonym appears in title or content":
for each query word and each table row listing it, every term of the row
found in content or title counts as one matched entry. -/
def specSynonymScore (qws : List (List Char)) (contentL titleL : List Char) : ℚ :=
  (3 / 2) * ((qws.map (fun w =>
    (bankingTerms.map (fun row =>
      if (row.2.map String.toList).contains w then
        (((row.2.map String.toList).filter
          (fun t => substrB t contentL || substrB t titleL)).length : ℚ)
      else 0)).sum)).sum)

/-- The document's weighted score as the spec lists it: the five components
added up. -/
def specRawScore {V : Type} (qws : List (List Char)) (doc : BankingDocument V) : ℚ :=
  specTitleScore qws (lowerStr doc.title)
    + specContentScore qws (lowerStr doc.content)
    + specPartialScore qws (lowerStr doc.content)
    + specCategoryScore qws (lowerStr doc.category)
    + specSynonymScore qws (lowerStr doc.content) (lowerStr doc.title)

/-- The lexical fallback as the spec words it: score every document,
normalize by `(word_count_in_query × 3.0)` clamped to at most 1, discard
zero scores, sort descending, take `top_k`, assign 1-based ranks. -/
def specLexicalRanking {V : Type} (docs : List (BankingDocument V))
    (query : String) (top_k : Nat) : List (RetrievalResult V) :=
  let qws := specTokenize query
  let kept := docs.filterMap (fun doc =>
    let s := specRawScore qws doc
    if 0 < s then some (doc, min (s / ((qws.length : ℚ) * 3)) 1) else none)
  ((sortByDesc (fun p => p.2) kept).take top_k).enum.map
    (fun p => ⟨p.2.1, p.2.2, p.1 + 1⟩)

/-- The retrieval outcome claimed by spec §4.2 step 3: keep exactly the
search slots whose position lies in `[0, document_count)`, map each to
its document with the slot's score, and rank the kept results 1..n. -/
def specFilteredResults {V : Type} (docs : List (BankingDocument V))
    (slots : List (ℚ × Int)) : List (RetrievalResult V) :=
  ((slots.filterMap (fun s =>
    if 0 ≤ s.2 ∧ s.2 < (docs.length : Int) then
      (docs.get? s.2.toNat).map (fun d => (d, s.1))
    else none)).enum.map (fun p => ⟨p.2.1, p.2.2, p.1 + 1⟩))

/-! ## Derived notions used by the stated properties -/

/-- The number of vectors the Vector Index holds (0 when no index object
exists). -/
def indexSize {V : Type} (st : RAGState V) : Nat := (st.index.getD []).length

/-- The positional-alignment invariant P1: document count equals index
size. -/
@[reducible] def aligned {V : Type} (st : RAGState V) : Prop :=
  st.documents.length = indexSize st

/-- One knowledge-base maintenance operation. -/
inductive KBOp (V : Type) where
  | add (document : BankingDocument V)
  | remove (document_id : String)
  | rebuild

/-- Apply one maintenance operation to the service state. -/
def applyOp {V : Type} (client : Bool) (apiEmbedOne : String → Option V)
    (mockStream : Nat → V) (normalize : V → V) (st : RAGState V) :
    KBOp V → RAGState V
  | .add d => (add_document client apiEmbedOne mockStream normalize st d).2
  | .remove i => (remove_document client apiEmbedOne mockStream normalize st i).2
  | .rebuild => rebuild_index client apiEmbedOne mockStream normalize st

/-- Apply a sequence of maintenance operations, left to right. -/
def applyOps {V : Type} (client : Bool) (apiEmbedOne : String → Option V)
    (mockStream : Nat → V) (normalize : V → V) (st : RAGState V)
    (ops : List (KBOp V)) : RAGState V :=
  ops.foldl (applyOp client apiEmbedOne mockStream normalize) st

/-- The three tokens of the P4 query "personal loan requirements". -/
def c7Words : List (List Char) :=
  ["personal".toList, "loan".toList, "requirements".toList]

/-- Documents 0–2 of the initialized service's store. -/
def c7Chunk0 : List (BankingDocument Unit) :=
  [⟨"doc_001",
    "Personal Loan Requirements",
    "Personal loan requirements include: minimum age of 21 years, maximum age of 65 years at loan maturity, minimum monthly income of $3,000, employment history of at least 2 years, good credit score (minimum 650), debt-to-income ratio below 40%, valid identification documents, proof of income (pay stubs, tax returns), and bank statements for the last 6 months. Loan amounts range from $1,000 to $100,000 with terms from 12 to 84 months. Interest rates vary based on creditworthiness, typically ranging from 5.99% to 24.99% APR.",
    "loans", "lending_policies.pdf", some (), none⟩,
   ⟨"doc_002",
    "Savings Account Features and Benefits",
    "Our savings accounts offer competitive interest rates, no monthly maintenance fees with minimum balance of $100, online and mobile banking access, ATM network access at 60,000+ locations nationwide, FDIC insurance up to $250,000 per depositor, automatic savings programs, direct deposit capabilities, and 24/7 customer service. Premium savings accounts require $10,000 minimum balance and offer higher interest rates, relationship banking benefits, and waived fees on other services.",
    "accounts", "product_guide.pdf", some (), none⟩,
   ⟨"doc_003",
    "Credit Card Application Process",
    "Credit card application process: complete online application with personal information, employment details, and financial information. Required documents include valid government-issued ID, Social Security number, proof of income, and employment verification. Processing time is typically 7-10 business days. Approval factors include credit score (minimum 600 for basic cards, 700+ for premium cards), income verification, debt-to-income ratio, and credit history length. New cardholders receive welcome bonuses, 0% introductory APR for 12 months, and fraud protection.",
    "credit", "credit_policies.pdf", some (), none⟩]

/-- Documents 3–5 of the initialized service's store. -/
def c7Chunk1 : List (BankingDocument Unit) :=
  [⟨"doc_004",
    "Investment Account Options",
    "Investment account options include Individual Retirement Accounts (IRA), Roth IRA, 401(k) rollovers, brokerage accounts, mutual funds, ETFs, and certificate of deposits. Minimum opening deposits vary: $500 for IRAs, $1,000 for brokerage accounts, $100 for CDs. Investment advisory services available with certified financial planners. Risk assessment and portfolio recommendations based on age, income, and retirement goals. Online trading platform with research tools, market analysis, and educational resources.",
    "investments", "investment_guide.pdf", some (), none⟩,
   ⟨"doc_005",
    "Mobile Banking Security Features",
    "Mobile banking security includes multi-factor authentication, biometric login (fingerprint, face ID), 256-bit SSL encryption, real-time fraud monitoring, transaction alerts, device registration, session timeout, and secure messaging. Additional features: mobile check deposit, bill pay, account transfers, ATM locator, spending categorization, and budget tracking. Security tips: use strong passwords, enable automatic app updates, avoid public Wi-Fi for banking, and report suspicious activity immediately.",
    "security", "security_manual.pdf", some (), none⟩,
   ⟨"doc_006",
    "Mortgage Loan Process and Requirements",
    "Mortgage loan process: pre-qualification, application submission, documentation review, property appraisal, underwriting, and closing. Required documents include income verification (W-2s, pay stubs, tax returns), bank statements, credit reports, employment verification, and property documentation. Down payment requirements: conventional loans 5-20%, FHA loans 3.5%, VA loans 0%. Loan terms: 15, 20, or 30 years. Interest rates based on credit score, down payment, and market conditions. Closing costs typically 2-5% of loan amount.",
    "loans", "mortgage_guidelines.pdf", some (), none⟩]

/-- Documents 6–8 of the initialized service's store. -/
def c7Chunk2 : List (BankingDocument Unit) :=
  [⟨"doc_007",
    "Business Banking Services",
    "Business banking services include business checking accounts, savings accounts, credit lines, merchant services, payroll processing, and cash management solutions. Account requirements: business license, EIN number, articles of incorporation, and business plan. Features: online banking, mobile deposits, wire transfers, ACH processing, and dedicated relationship managers. Loan products: equipment financing, working capital loans, SBA loans, and commercial real estate financing. Treasury management services for larger businesses.",
    "business", "business_services.pdf", some (), none⟩,
   ⟨"doc_008",
    "Federal Banking Regulations and Compliance",
    "Key federal banking regulations include FDIC insurance requirements, Truth in Lending Act (TILA), Fair Credit Reporting Act (FCRA), Equal Credit Opportunity Act (ECOA), Bank Secrecy Act (BSA), and Anti-Money Laundering (AML) requirements. Customer identification programs (CIP) required for new accounts. Privacy notices under Gramm-Leach-Bliley Act. Regulation E covers electronic fund transfers. Regulation Z implements TILA for credit disclosures. Compliance monitoring and reporting requirements for suspicious activities.",
    "regulations", "compliance_manual.pdf", some (), none⟩,
   ⟨"doc_009",
    "Interest Rates and Fee Structure",
    "Current interest rates: savings accounts 0.50%-2.50% APY, money market accounts 1.00%-3.00% APY, CDs 1.50%-4.50% APY based on term length. Loan rates: personal loans 5.99%-24.99% APR, auto loans 3.49%-15.99% APR, mortgages 6.25%-8.75% APR. Fee structure: overdraft fees $35, ATM fees $3 (out-of-network), wire transfer fees $25 domestic/$50 international, stop payment fees $30, account closure fees $25 (within 90 days).",
    "rates", "rate_sheet.pdf", some (), none⟩]

/-- Documents 9–11 of the initialized service's store. -/
def c7Chunk3 : List (BankingDocument Unit) :=
  [⟨"doc_010",
    "Customer Service and Support Channels",
    "Customer service available through multiple channels: 24/7 phone support, online chat, email support, branch locations, and mobile app messaging. Specialized support teams for different services: mortgage specialists, investment advisors, business banking experts, and fraud prevention team. Self-service options: online banking, mobile app, ATM network, and FAQ resources. Response times: phone calls answered within 2 minutes, chat within 1 minute, emails within 24 hours. Customer satisfaction ratings and feedback programs.",
    "support", "service_standards.pdf", some (), none⟩,
   ⟨"doc_011",
    "Cryptocurrency and Digital Asset Services",
    "Our bank now offers cryptocurrency services including Bitcoin and Ethereum trading, digital wallet management, and blockchain-based transactions. Services include: cryptocurrency buying/selling with competitive rates, secure digital wallet storage, integration with traditional banking accounts, regulatory compliance with federal guidelines, and educational resources about digital assets. Minimum investment is $100, with transaction fees of 1.5%. Available through our mobile app and online banking platform. All cryptocurrency transactions are FDIC-insured up to regulatory limits.",
    "digital", "crypto_services.pdf", some (), none⟩,
   ⟨"personal_loan_guide",
    "Personal Loan Requirements and Application Process",
    "Personal Loan Requirements: Minimum age 21 years, minimum credit score 650, annual income of $30,000+, debt-to-income ratio below 40%, US citizenship or permanent residency required. Employment verification needed with 2+ years stable employment history. Required documents include: government-issued ID, Social Security card, proof of income (pay stubs, tax returns), bank statements from last 3 months, employment verification letter. Loan amounts range from $5,000 to $50,000 with terms of 2-7 years. Interest rates from 6.99% to 24.99% APR based on creditworthiness. No collateral required. Application can be completed online, by phone, or in-branch. Processing time 1-3 business days for approval, funding within 24 hours of approval. No prepayment penalties. Late payment fee $25. Origination fee 1-5% of loan amount depending on credit profile.",
    "loans", "personal_loan_guide.pdf", some (), none⟩]

/-- Documents 12–14 of the initialized service's store. -/
def c7Chunk4 : List (BankingDocument Unit) :=
  [⟨"doc_012",
    "Comprehensive Financial Planning Services",
    "Financial planning services include retirement planning, college savings plans (529 plans), estate planning, tax optimization strategies, and wealth management. Our certified financial planners provide personalized consultations, portfolio analysis, risk assessment, and long-term financial goal setting. Services available for accounts with $50,000+ balance. Planning fees: $200 initial consultation, $150/hour ongoing advisory. Includes annual portfolio review, tax planning strategies, insurance analysis, and beneficiary planning.",
    "planning", "financial_planning.pdf", some (), none⟩,
   ⟨"doc_013",
    "Small Business Loan Programs",
    "Small business loan programs include SBA 7(a) loans up to $5 million, SBA microloans up to $50,000, equipment financing, commercial real estate loans, and business lines of credit. Requirements: business plan, financial statements, personal guarantee, collateral (varies by loan type), good credit score (680+), and business operating for 2+ years. Interest rates range from 5.5% to 12% based on loan type and creditworthiness. Application process includes business evaluation, financial analysis, and approval timeline of 30-45 days.",
    "business", "sba_loan_guide.pdf", some (), none⟩,
   ⟨"doc_014",
    "Wealth Management and Private Banking",
    "Private banking services for high-net-worth clients with $1 million+ in assets. Services include dedicated relationship managers, customized investment portfolios, estate planning, tax strategies, trust services, and exclusive banking benefits. Investment options: alternative investments, hedge funds, private equity, real estate investment trusts (REITs), and international markets. Additional perks: priority customer service, waived fees, exclusive events, and concierge services. Minimum account balance requirements and fee structures vary by service level.",
    "wealth", "private_banking_guide.pdf", some (), none⟩]

/-- Documents 15–17 of the initialized service's store. -/
def c7Chunk5 : List (BankingDocument Unit) :=
  [⟨"doc_015",
    "Online and Mobile Banking Features",
    "Digital banking platform features: account management, bill pay, money transfers, mobile check deposit, budgeting tools, spending alerts, and financial insights. Advanced features: scheduled payments, recurring transfers, account aggregation, goal tracking, and expense categorization. Security features: two-factor authentication, biometric login, transaction monitoring, and fraud alerts. Customer support through chat, video calls, and screen sharing. Available 24/7 with offline capabilities for account viewing.",
    "digital", "digital_banking_guide.pdf", some (), none⟩,
   ⟨"doc_016",
    "Auto Loan Financing Options",
    "Auto loan financing available for new and used vehicles. New car loans: rates from 3.99% to 8.99% APR, terms up to 84 months, up to 100% financing available. Used car loans: rates from 4.99% to 12.99% APR, terms up to 72 months, vehicles up to 7 years old eligible. Required documents: proof of income, insurance coverage, vehicle information, and driver's license. Pre-approval available online. Loan amounts from $5,000 to $100,000. No prepayment penalties. Gap insurance and extended warranty options available.",
    "loans", "auto_loan_guide.pdf", some (), none⟩,
   ⟨"doc_017",
    "Home Equity Line of Credit (HELOC)",
    "Home Equity Line of Credit provides flexible access to your home's equity. Credit limits up to 80% of home value minus existing mortgage balance. Variable interest rates starting at Prime + 0.5%. Draw period: 10 years with interest-only payments. Repayment period: 15 years with principal and interest payments. No closing costs on lines up to $250,000. Uses include home improvements, debt consolidation, education expenses, and major purchases. Required: home appraisal, income verification, and good credit score (720+).",
    "loans", "heloc_guide.pdf", some (), none⟩]

/-- Documents 18–20 of the initialized service's store. -/
def c7Chunk6 : List (BankingDocument Unit) :=
  [⟨"doc_018",
    "Student Loan Services and Refinancing",
    "Student loan services include federal loan servicing, private student loans, and refinancing options. Private loans: competitive rates, flexible repayment terms, no origination fees, and cosigner release options. Refinancing benefits: potentially lower rates, simplified payments, and flexible terms. Eligibility: good credit score, stable income, and graduation from eligible institution. Student checking accounts with no monthly fees, overdraft protection, and financial literacy resources. Parent PLUS loan alternatives available.",
    "loans", "student_loan_services.pdf", some (), none⟩,
   ⟨"doc_019",
    "Foreign Exchange and International Banking",
    "International banking services include foreign exchange, wire transfers, international trade finance, and multi-currency accounts. Foreign exchange: competitive rates for 50+ currencies, online rate calculator, and currency delivery services. International wire transfers: same-day processing, competitive fees, and real-time tracking. Services for expatriates: international account access, global ATM network, and cross-border investment options. Trade finance: letters of credit, documentary collections, and export financing.",
    "international", "international_services.pdf", some (), none⟩,
   ⟨"doc_020",
    "Insurance Products and Protection Services",
    "Insurance products available through banking partnerships: life insurance, disability insurance, home insurance, auto insurance, and identity theft protection. Life insurance options: term life, whole life, and universal life policies. Disability insurance: short-term and long-term coverage for income protection. Identity theft protection includes credit monitoring, fraud alerts, and resolution services. Insurance premium financing available. Bundled packages offer discounts when combined with banking services.",
    "insurance", "insurance_products.pdf", some (), none⟩]

/-- Documents 21–23 of the initialized service's store. -/
def c7Chunk7 : List (BankingDocument Unit) :=
  [⟨"doc_021",
    "ATM and Branch Network Services",
    "Extensive ATM network with 75,000+ locations nationwide and international access. Branch services: personal banker consultations, safe deposit boxes, notary services, and cashier's checks. ATM services: cash withdrawal, deposits, balance inquiries, mini-statements, and cardless access via mobile app. International ATM access in 200+ countries. ATM fees: free at network locations, $3 fee for out-of-network usage with reimbursement programs for premium accounts. Extended branch hours and weekend availability at select locations.",
    "services", "branch_atm_guide.pdf", some (), none⟩,
   ⟨"doc_022",
    "Credit Building and Repair Services",
    "Credit building services include secured credit cards, credit monitoring, and financial education programs. Secured credit card: $200-$5,000 credit limit based on deposit, graduates to unsecured card after 12 months of good payment history. Credit monitoring: free credit scores, alerts for changes, and identity monitoring. Credit repair consultations available with certified counselors. Financial literacy workshops covering budgeting, credit management, and debt reduction strategies. Young adult programs for building first-time credit.",
    "credit", "credit_building_guide.pdf", some (), none⟩,
   ⟨"doc_023",
    "Senior Banking Services and Benefits",
    "Senior banking services for customers 65+: free checking accounts, enhanced fraud protection, large-font statements, and dedicated customer service. Additional benefits: waived fees on cashier's checks, money orders, and safe deposit boxes. Investment services: conservative portfolio options, income-focused strategies, and estate planning assistance. Health Savings Account (HSA) management for medical expenses. Senior discounts on loan rates and insurance products. Educational seminars on retirement planning and Medicare supplements.",
    "senior", "senior_services_guide.pdf", some (), none⟩]

/-- Documents 24–25 of the initialized service's store. -/
def c7Chunk8 : List (BankingDocument Unit) :=
  [⟨"doc_024",
    "Environmental and Sustainable Banking",
    "Sustainable banking initiatives include paperless statements, carbon-neutral operations, and green financing options. Green loans: energy-efficient home improvements, solar panel financing, and electric vehicle loans with reduced rates. Environmental impact: renewable energy investments, sustainable business lending, and carbon offset programs. Electronic services: mobile banking, online bill pay, and digital documents to reduce paper usage. Community investments in renewable energy projects and environmental conservation programs.",
    "sustainability", "green_banking_guide.pdf", some (), none⟩,
   ⟨"doc_025",
    "Youth and Student Banking Programs",
    "Youth banking programs for ages 13-24: free checking and savings accounts, financial literacy education, and scholarship opportunities. Student accounts: no monthly fees, free ATM access, overdraft forgiveness, and budgeting tools. Youth savings accounts with competitive rates and goal-setting features. Parent-child joint accounts with spending controls and monitoring. Educational resources: online financial courses, budgeting apps, and money management workshops. College banking packages with special rates and services.",
    "youth", "youth_banking_guide.pdf", some (), none⟩]

/-- The documents of the freshly initialized service: the knowledge base
with the (unit-modelled) mock embeddings attached, split into chunks so
that each evaluation lemma below stays small. -/
def kbEmbeddedDocs : List (BankingDocument Unit) :=
  c7Chunk0 ++ c7Chunk1 ++ c7Chunk2 ++ c7Chunk3 ++ c7Chunk4 ++ c7Chunk5 ++ c7Chunk6 ++ c7Chunk7 ++ c7Chunk8

/-! ## Supporting lemmas -/

theorem mapM_option_length {α β : Type} (f : α → Option β) :
    ∀ (l : List α) (r : List β), l.mapM f = some r → r.length = l.length := by
  intro l
  induction l with
  | nil =>
    intro r h
    simp only [List.mapM_nil, pure] at h
    cases h
    rfl
  | cons a l ih =>
    intro r h
    rw [List.mapM_cons] at h
    cases ha : f a with
    | none => rw [ha] at h; simp at h
    | some b =>
      rw [ha] at h
      cases hl : l.mapM f with
      | none => rw [hl] at h; simp at h
      | some bs =>
        rw [hl] at h
        simp only [Option.bind_eq_bind, Option.some_bind, Option.some_inj,
          pure] at h
        subst h
        simp [ih bs hl]

theorem generateEmbeddings_length {V : Type} (client : Bool)
    (apiEmbedOne : String → Option V) (mockStream : Nat → V)
    (texts : List String) :
    (generateEmbeddings client apiEmbedOne mockStream texts).length = texts.length := by
  unfold generateEmbeddings mockEmbeddings
  cases client with
  | false => simp
  | true =>
    cases h : texts.mapM apiEmbedOne with
    | none => simp
    | some es => simpa using mapM_option_length apiEmbedOne texts es h

theorem generateEmbeddings_single {V : Type} (client : Bool)
    (apiEmbedOne : String → Option V) (mockStream : Nat → V) (t : String) :
    ∃ e, generateEmbeddings client apiEmbedOne mockStream [t] = [e] := by
  have h := generateEmbeddings_length client apiEmbedOne mockStream [t]
  cases hg : generateEmbeddings client apiEmbedOne mockStream [t] with
  | nil => rw [hg] at h; simp at h
  | cons e rest =>
    rw [hg] at h
    simp at h
    exact ⟨e, by rw [h]⟩

theorem insertDesc_length {α : Type} (key : α → ℚ) (x : α) (l : List α) :
    (insertDesc key x l).length = l.length + 1 := by
  induction l with
  | nil => rfl
  | cons y ys ih =>
    unfold insertDesc
    by_cases h : key x ≤ key y <;> simp [h, ih]

theorem mem_insertDesc {α : Type} (key : α → ℚ) (x y : α) (l : List α) :
    y ∈ insertDesc key x l ↔ y = x ∨ y ∈ l := by
  induction l with
  | nil => simp [insertDesc]
  | cons z zs ih =>
    unfold insertDesc
    by_cases h : key x ≤ key z
    · simp only [h, if_true, List.mem_cons, ih]
      tauto
    · simp [h]

theorem insertDesc_pairwise {α : Type} (key : α → ℚ) (x : α) (l : List α)
    (h : l.Pairwise (fun a b => key b ≤ key a)) :
    (insertDesc key x l).Pairwise (fun a b => key b ≤ key a) := by
  induction l with
  | nil => simp [insertDesc]
  | cons y ys ih =>
    rw [List.pairwise_cons] at h
    unfold insertDesc
    by_cases hk : key x ≤ key y
    · simp only [hk, if_true]
      rw [List.pairwise_cons]
      constructor
      · intro z hz
        rcases (mem_insertDesc key x z ys).mp hz with rfl | hz'
        · exact hk
        · exact h.1 z hz'
      · exact ih h.2
    · simp only [hk, if_false]
      rw [List.pairwise_cons]
      constructor
      · intro z hz
        rcases List.mem_cons.mp hz with rfl | hz'
        · exact le_of_lt (lt_of_not_le hk)
        · exact le_trans (h.1 z hz') (le_of_lt (lt_of_not_le hk))
      · exact List.Pairwise.cons h.1 h.2

theorem sortByDesc_aux_pairwise {α : Type} (key : α → ℚ) (l acc : List α)
    (h : acc.Pairwise (fun a b => key b ≤ key a)) :
    (l.foldl (fun acc x => insertDesc key x acc) acc).Pairwise
      (fun a b => key b ≤ key a) := by
  induction l generalizing acc with
  | nil => exact h
  | cons x xs ih => exact ih _ (insertDesc_pairwise key x acc h)

theorem sortByDesc_pairwise {α : Type} (key : α → ℚ) (l : List α) :
    (sortByDesc key l).Pairwise (fun a b => key b ≤ key a) :=
  sortByDesc_aux_pairwise key l [] List.Pairwise.nil

theorem sortByDesc_aux_mem {α : Type} (key : α → ℚ) (l : List α) :
    ∀ (acc : List α) (y : α),
      y ∈ l.foldl (fun acc x => insertDesc key x acc) acc ↔ y ∈ l ∨ y ∈ acc := by
  induction l with
  | nil => simp
  | cons x xs ih =>
    intro acc y
    simp only [List.foldl_cons, ih, mem_insertDesc, List.mem_cons]
    tauto

theorem mem_sortByDesc {α : Type} (key : α → ℚ) (l : List α) (y : α) :
    y ∈ sortByDesc key l ↔ y ∈ l := by
  unfold sortByDesc
  rw [sortByDesc_aux_mem]
  simp

theorem sortByDesc_aux_length {α : Type} (key : α → ℚ) (l : List α) :
    ∀ acc : List α,
      (l.foldl (fun acc x => insertDesc key x acc) acc).length
        = l.length + acc.length := by
  induction l with
  | nil => simp
  | cons x xs ih =>
    intro acc
    simp only [List.foldl_cons, ih, insertDesc_length, List.length_cons]
    omega

theorem sortByDesc_length {α : Type} (key : α → ℚ) (l : List α) :
    (sortByDesc key l).length = l.length := by
  unfold sortByDesc
  rw [sortByDesc_aux_length]
  simp

/-! ## Claim C10 -/

/-- C10: for every query and top_k, when the service is not initialized or
the Vector Index is absent, `retrieve_documents` raises (here: returns the
`ValueError` as an `Except.error`) rather than returning a result list, so
retrieval results are only produced on an initialized service with a ready
index. -/
theorem c10_theorem {V : Type} (client : Bool) (apiEmbedOne : String → Option V)
    (mockStream : Nat → V) (normalize : V → V) (dot : V → V → ℚ)
    (st : RAGState V) (query : String) (top_k : Nat)
    (h : st.initDone = false ∨ st.index = none) :
    retrieve_documents client apiEmbedOne mockStream normalize dot st query top_k
      = .error "Service not initialized" := by
  rcases h with h | h
  · cases hidx : st.index with
    | none => simp [retrieve_documents, hidx]
    | some idx => simp [retrieve_documents, hidx, h]
  · simp [retrieve_documents, h]

theorem c10_witness :
    retrieve_documents (V := Unit) false (fun _ => none) (fun _ => ())
      (fun v => v) (fun _ _ => 0) ⟨[], none, false⟩ "loan" 3
      = .error "Service not initialized" :=
  c10_theorem false (fun _ => none) (fun _ => ()) (fun v => v) (fun _ _ => 0)
    ⟨[], none, false⟩ "loan" 3 (Or.inl rfl)

/-! ## Claim C8 -/

/-- C8: calling `rebuild_index` twice consecutively with no document
changes in between yields index contents — the document sequence and the
stored vectors, in order — identical to those after a single call.  (In
the model the embedding provider and mock stream are deterministic
functions; the rebuilt store and index do not depend on the incoming
state at all, because `rebuild_index` reloads the knowledge base before
computing its `existing_docs`.) -/
theorem c8_theorem {V : Type} (client : Bool) (apiEmbedOne : String → Option V)
    (mockStream : Nat → V) (normalize : V → V) (st : RAGState V) :
    (rebuild_index client apiEmbedOne mockStream normalize
        (rebuild_index client apiEmbedOne mockStream normalize st)).documents
      = (rebuild_index client apiEmbedOne mockStream normalize st).documents
    ∧ (rebuild_index client apiEmbedOne mockStream normalize
        (rebuild_index client apiEmbedOne mockStream normalize st)).index
      = (rebuild_index client apiEmbedOne mockStream normalize st).index :=
  ⟨rfl, rfl⟩

/-! ## Alignment lemmas for the maintenance operations -/

theorem zipWith_embed_ids {V : Type} :
    ∀ (docs : List (BankingDocument V)) (embs : List V),
      docs.length ≤ embs.length →
      (docs.zipWith (fun d e => {d with embedding := some e}) embs).map
          (fun d => d.id)
        = docs.map (fun d => d.id) := by
  intro docs
  induction docs with
  | nil => intro embs _; rfl
  | cons d ds ih =>
    intro embs h
    cases embs with
    | nil => simp at h
    | cons e es =>
      simp only [List.zipWith_cons_cons, List.map_cons]
      rw [ih es (by simpa using h)]

theorem create_vector_index_ok {V : Type} (client : Bool)
    (apiEmbedOne : String → Option V) (mockStream : Nat → V) (normalize : V → V)
    (st : RAGState V) (h : st.documents ≠ []) :
    ∃ st', create_vector_index client apiEmbedOne mockStream normalize st = .ok st'
      ∧ aligned st'
      ∧ st'.documents.length = st.documents.length
      ∧ st'.documents.map (fun d => d.id) = st.documents.map (fun d => d.id)
      ∧ st'.index.isSome
      ∧ st'.initDone = st.initDone := by
  unfold create_vector_index
  rw [if_neg (by simpa using h)]
  refine ⟨_, rfl, ?_, ?_, ?_, rfl, rfl⟩
  · simp [aligned, indexSize, List.length_zipWith, generateEmbeddings_length]
  · simp [List.length_zipWith, generateEmbeddings_length]
  · exact zipWith_embed_ids st.documents _
      (by simp [generateEmbeddings_length])

theorem collectEmbeddings_length {V : Type} (client : Bool)
    (apiEmbedOne : String → Option V) (mockStream : Nat → V)
    (docs : List (BankingDocument V)) :
    (collectEmbeddings client apiEmbedOne mockStream docs).1.length = docs.length
    ∧ (collectEmbeddings client apiEmbedOne mockStream docs).2.length = docs.length := by
  induction docs with
  | nil => exact ⟨rfl, rfl⟩
  | cons d ds ih =>
    cases he : d.embedding with
    | some e => simp [collectEmbeddings, he, ih.1, ih.2]
    | none =>
      obtain ⟨e, hg⟩ := generateEmbeddings_single client apiEmbedOne mockStream d.content
      simp [collectEmbeddings, he, hg, ih.1, ih.2]

theorem rebuild_index_aligned {V : Type} (client : Bool)
    (apiEmbedOne : String → Option V) (mockStream : Nat → V) (normalize : V → V)
    (st : RAGState V) :
    aligned (rebuild_index client apiEmbedOne mockStream normalize st) := by
  simp only [aligned, indexSize, rebuild_index, save_index, Option.getD_some,
    List.length_map]
  rw [(collectEmbeddings_length client apiEmbedOne mockStream _).1,
    (collectEmbeddings_length client apiEmbedOne mockStream _).2]

theorem add_document_aligned {V : Type} (client : Bool)
    (apiEmbedOne : String → Option V) (mockStream : Nat → V) (normalize : V → V)
    (st : RAGState V) (d : BankingDocument V)
    (h : aligned st) (hidx : st.index.isSome) :
    aligned (add_document client apiEmbedOne mockStream normalize st d).2 := by
  unfold add_document
  cases hdup : (st.documents.map (fun x => x.id)).contains d.id with
  | true => simpa [hdup] using h
  | false =>
    obtain ⟨e, hg⟩ := generateEmbeddings_single client apiEmbedOne mockStream d.content
    cases hvs : st.index with
    | none => rw [hvs] at hidx; simp at hidx
    | some vs =>
      have hlen : st.documents.length = vs.length := by
        simpa [aligned, indexSize, hvs] using h
      simp [hdup, hg, hvs, save_index, aligned, indexSize, hlen]

theorem remove_document_aligned {V : Type} (client : Bool)
    (apiEmbedOne : String → Option V) (mockStream : Nat → V) (normalize : V → V)
    (st : RAGState V) (document_id : String)
    (h : aligned st) (hlen : st.documents.length ≠ 1) :
    aligned (remove_document client apiEmbedOne mockStream normalize st document_id).2 := by
  unfold remove_document
  cases hf : st.documents.findIdx? (fun d => d.id == document_id) with
  | none => simpa using h
  | some i =>
    have hne : st.documents ≠ [] := by
      intro he
      rw [he] at hf
      simp at hf
    have h1 : 1 ≤ st.documents.length := List.length_pos.mpr hne
    have h2 : 2 ≤ st.documents.length := by omega
    have hle := List.le_length_eraseIdx st.documents i
    have hne' : st.documents.eraseIdx i ≠ [] := by
      intro he
      rw [he] at hle
      simp at hle
      omega
    obtain ⟨st', hok, hal, _, _, _, _⟩ := create_vector_index_ok client apiEmbedOne
      mockStream normalize {st with documents := st.documents.eraseIdx i}
      (by simpa using hne')
    simpa [hf, hok, save_index] using hal

/-! ## Claim C1 -/

/-- C1 (amended): from an aligned state, `add_document` (on a service
whose index exists) and `rebuild_index` preserve
`document_count == index_size`, and `remove_document` preserves it
provided it is not removing the last remaining document.  (The original
claim — alignment after *every* operation of *every* sequence — fails:
removing the last document pops it from the store, then the index rebuild
raises `ValueError("No documents to index")`, which `remove_document`
swallows, returning failure with an emptied store and the old index still
holding one vector; see the counterexample.) -/
theorem c1_theorem {V : Type} (client : Bool) (apiEmbedOne : String → Option V)
    (mockStream : Nat → V) (normalize : V → V) (st : RAGState V)
    (h : aligned st) :
    (∀ d, st.index.isSome →
      aligned (add_document client apiEmbedOne mockStream normalize st d).2)
    ∧ (∀ i, st.documents.length ≠ 1 →
      aligned (remove_document client apiEmbedOne mockStream normalize st i).2)
    ∧ aligned (rebuild_index client apiEmbedOne mockStream normalize st) :=
  ⟨fun d hidx => add_document_aligned client apiEmbedOne mockStream normalize st d h hidx,
   fun i hl => remove_document_aligned client apiEmbedOne mockStream normalize st i h hl,
   rebuild_index_aligned client apiEmbedOne mockStream normalize st⟩

theorem c1_witness :
    aligned ((add_document (V := Unit) false (fun _ => none) (fun _ => ())
        (fun v => v)
        ⟨[⟨"d1", "t1", "c1", "cat", "s", some (), none⟩,
          ⟨"d2", "t2", "c2", "cat", "s", some (), none⟩], some [(), ()], true⟩
        ⟨"d3", "t3", "c3", "cat", "s", none, none⟩).2)
    ∧ aligned ((remove_document (V := Unit) false (fun _ => none) (fun _ => ())
        (fun v => v)
        ⟨[⟨"d1", "t1", "c1", "cat", "s", some (), none⟩,
          ⟨"d2", "t2", "c2", "cat", "s", some (), none⟩], some [(), ()], true⟩
        "d1").2) := by
  have h := c1_theorem (V := Unit) false (fun _ => none) (fun _ => ())
    (fun v => v)
    ⟨[⟨"d1", "t1", "c1", "cat", "s", some (), none⟩,
      ⟨"d2", "t2", "c2", "cat", "s", some (), none⟩], some [(), ()], true⟩
    (by decide)
  exact ⟨h.1 ⟨"d3", "t3", "c3", "cat", "s", none, none⟩ rfl,
    h.2.1 "d1" (by decide)⟩

/-- C1 is false as originally stated: starting from the freshly
initialized service (no embedding client) and removing every knowledge
base document in order, the very last removal leaves
`document_count = 0` while the index still holds one vector. -/
theorem c1_counterexample :
    ¬ aligned (applyOps (V := Unit) false (fun _ => none) (fun _ => ())
      (fun v => v)
      (initService Unit false (fun _ => none) (fun _ => ()) (fun v => v))
      (["doc_001", "doc_002", "doc_003", "doc_004", "doc_005", "doc_006",
        "doc_007", "doc_008", "doc_009", "doc_010", "doc_011",
        "personal_loan_guide", "doc_012", "doc_013", "doc_014", "doc_015",
        "doc_016", "doc_017", "doc_018", "doc_019", "doc_020", "doc_021",
        "doc_022", "doc_023", "doc_024", "doc_025"].map KBOp.remove)) := by
  with_unfolding_all decide

/-! ## Claim C5 -/

/-- C5 (amended): `remove_document` returns failure and leaves the state
unchanged when no document has the id; when the id is found and at least
one other document remains, it returns success with the document removed
and the Vector Index fully rebuilt (via `_create_vector_index`); but when
the id is found and it is the *only* document, it returns failure with the
document nonetheless removed and the index not rebuilt — so "failure iff
the id is absent" and "failure leaves the store unchanged" both fail on
that corner (see the counterexample). -/
theorem c5_theorem {V : Type} (client : Bool) (apiEmbedOne : String → Option V)
    (mockStream : Nat → V) (normalize : V → V) (st : RAGState V)
    (document_id : String) :
    (st.documents.findIdx? (fun d => d.id == document_id) = none →
      remove_document client apiEmbedOne mockStream normalize st document_id
        = (false, st))
    ∧ (∀ i, st.documents.findIdx? (fun d => d.id == document_id) = some i →
        (2 ≤ st.documents.length →
          ∃ st', create_vector_index client apiEmbedOne mockStream normalize
              {st with documents := st.documents.eraseIdx i} = .ok st'
            ∧ remove_document client apiEmbedOne mockStream normalize st
                document_id = (true, st')
            ∧ st'.documents.map (fun d => d.id)
                = (st.documents.eraseIdx i).map (fun d => d.id)
            ∧ aligned st')
        ∧ (st.documents.length = 1 →
          remove_document client apiEmbedOne mockStream normalize st document_id
            = (false, {st with documents := []}))) := by
  constructor
  · intro hf
    unfold remove_document
    rw [hf]
  · intro i hf
    constructor
    · intro h2
      have hle := List.le_length_eraseIdx st.documents i
      have hne' : st.documents.eraseIdx i ≠ [] := by
        intro he
        rw [he] at hle
        simp at hle
        omega
      obtain ⟨st', hok, hal, _, hids, _, _⟩ := create_vector_index_ok client
        apiEmbedOne mockStream normalize
        {st with documents := st.documents.eraseIdx i} (by simpa using hne')
      refine ⟨st', hok, ?_, by simpa using hids, hal⟩
      unfold remove_document
      simp only [hf, hok, save_index]
    · intro h1
      have hi : i < st.documents.length :=
        (List.findIdx?_eq_some_iff_findIdx_eq.mp hf).1
      have hi0 : i = 0 := by omega
      have herase : st.documents.eraseIdx i = [] := by
        subst hi0
        cases hd : st.documents with
        | nil => rfl
        | cons x xs =>
          rw [hd] at h1
          simp at h1
          simp [List.eraseIdx, h1]
      have hcreate : create_vector_index client apiEmbedOne mockStream normalize
          {st with documents := ([] : List (BankingDocument V))}
          = .error "No documents to index" := by
        unfold create_vector_index
        rfl
      unfold remove_document
      simp only [hf, herase, hcreate]

theorem c5_witness :
    remove_document (V := Unit) false (fun _ => none) (fun _ => ())
        (fun v => v)
        ⟨[⟨"d1", "t1", "c1", "cat", "s", some (), none⟩,
          ⟨"d2", "t2", "c2", "cat", "s", some (), none⟩], some [(), ()], true⟩
        "zz"
      = (false,
        ⟨[⟨"d1", "t1", "c1", "cat", "s", some (), none⟩,
          ⟨"d2", "t2", "c2", "cat", "s", some (), none⟩], some [(), ()], true⟩)
    ∧ (remove_document (V := Unit) false (fun _ => none) (fun _ => ())
        (fun v => v)
        ⟨[⟨"d1", "t1", "c1", "cat", "s", some (), none⟩,
          ⟨"d2", "t2", "c2", "cat", "s", some (), none⟩], some [(), ()], true⟩
        "d1").1 = true := by
  have h := c5_theorem (V := Unit) false (fun _ => none) (fun _ => ())
    (fun v => v)
    ⟨[⟨"d1", "t1", "c1", "cat", "s", some (), none⟩,
      ⟨"d2", "t2", "c2", "cat", "s", some (), none⟩], some [(), ()], true⟩
  constructor
  · exact (h "zz").1 (by with_unfolding_all decide)
  · obtain ⟨st', _, heq, _, _⟩ :=
      ((h "d1").2 0 (by with_unfolding_all decide)).1 (by decide)
    rw [heq]

/-- C5 is false as originally stated: on a store holding exactly one
document, removing that document's id returns failure even though the id
exists, and the store is changed (emptied) despite the failure. -/
theorem c5_counterexample :
    ¬ (((remove_document (V := Unit) false (fun _ => none) (fun _ => ())
          (fun v => v)
          ⟨[⟨"d1", "t1", "c1", "cat", "s", some (), none⟩], some [()], true⟩
          "d1").1 = false
        ↔ ∀ d ∈ (⟨[⟨"d1", "t1", "c1", "cat", "s", some (), none⟩], some [()],
            true⟩ : RAGState Unit).documents, d.id ≠ "d1")
      ∧ ((remove_document (V := Unit) false (fun _ => none) (fun _ => ())
          (fun v => v)
          ⟨[⟨"d1", "t1", "c1", "cat", "s", some (), none⟩], some [()], true⟩
          "d1").1 = false →
        (remove_document (V := Unit) false (fun _ => none) (fun _ => ())
          (fun v => v)
          ⟨[⟨"d1", "t1", "c1", "cat", "s", some (), none⟩], some [()], true⟩
          "d1").2
          = ⟨[⟨"d1", "t1", "c1", "cat", "s", some (), none⟩], some [()], true⟩)) := by
  with_unfolding_all decide

/-! ## Claim C6 -/

/-- C6 (amended): `add_document` never propagates an `EmbeddingError`.
For any document whose id is not already present it succeeds: it embeds
the content via `_generate_embeddings`, which on provider failure
silently substitutes the deterministic mock embedding (the first vector
of the seeded mock stream) instead of raising; the document is appended
with that embedding and, when an index exists, its normalized vector is
appended too.  (The original claim — an `EmbeddingError` propagates and
only provider success appends — is refuted by the counterexample.) -/
theorem c6_theorem {V : Type} (client : Bool) (apiEmbedOne : String → Option V)
    (mockStream : Nat → V) (normalize : V → V) (st : RAGState V)
    (document : BankingDocument V)
    (hdup : (st.documents.map (fun d => d.id)).contains document.id = false) :
    ∃ e, generateEmbeddings client apiEmbedOne mockStream [document.content] = [e]
      ∧ (add_document client apiEmbedOne mockStream normalize st document).1 = true
      ∧ (add_document client apiEmbedOne mockStream normalize st document).2.documents
          = st.documents ++ [{document with embedding := some e}]
      ∧ (∀ vs, st.index = some vs →
          (add_document client apiEmbedOne mockStream normalize st document).2.index
            = some (vs ++ [normalize e]))
      ∧ (client = true → apiEmbedOne document.content = none → e = mockStream 0) := by
  have hdup' : ¬ ∃ a ∈ st.documents, a.id = document.id := by simpa using hdup
  obtain ⟨e, hg⟩ := generateEmbeddings_single client apiEmbedOne mockStream
    document.content
  refine ⟨e, hg, ?_, ?_, ?_, ?_⟩
  · unfold add_document
    cases hvs : st.index with
    | none => simp [hdup', hg, hvs]
    | some vs => simp [hdup', hg, hvs]
  · unfold add_document
    cases hvs : st.index with
    | none => simp [hdup', hg, hvs, save_index]
    | some vs => simp [hdup', hg, hvs, save_index]
  · intro vs hvs
    unfold add_document
    simp [hdup', hg, hvs, save_index]
  · intro hc ha
    subst hc
    have hm : List.mapM.loop apiEmbedOne [document.content] [] = none := by
      simp [List.mapM.loop, ha]
    unfold generateEmbeddings at hg
    simp [List.mapM, hm, mockEmbeddings, List.range_succ] at hg
    exact hg.symm

theorem c6_witness :
    ∃ e, generateEmbeddings (V := Bool) true (fun _ => some true)
        (fun _ => false) ["content d9"] = [e]
      ∧ (add_document (V := Bool) true (fun _ => some true) (fun _ => false)
          (fun v => v)
          ⟨[⟨"d1", "t1", "c1", "cat", "s", some true, none⟩], some [true], true⟩
          ⟨"d9", "t9", "content d9", "cat", "s", none, none⟩).1 = true
      ∧ (add_document (V := Bool) true (fun _ => some true) (fun _ => false)
          (fun v => v)
          ⟨[⟨"d1", "t1", "c1", "cat", "s", some true, none⟩], some [true], true⟩
          ⟨"d9", "t9", "content d9", "cat", "s", none, none⟩).2.documents
          = [⟨"d1", "t1", "c1", "cat", "s", some true, none⟩]
            ++ [{(⟨"d9", "t9", "content d9", "cat", "s", none, none⟩ :
              BankingDocument Bool) with embedding := some e}]
      ∧ (∀ vs, (⟨[⟨"d1", "t1", "c1", "cat", "s", some true, none⟩], some [true],
            true⟩ : RAGState Bool).index = some vs →
          (add_document (V := Bool) true (fun _ => some true) (fun _ => false)
            (fun v => v)
            ⟨[⟨"d1", "t1", "c1", "cat", "s", some true, none⟩], some [true], true⟩
            ⟨"d9", "t9", "content d9", "cat", "s", none, none⟩).2.index
            = some (vs ++ [e]))
      ∧ (true = true → (fun (_ : String) => (some true : Option Bool)) "content d9" = none →
          e = false) :=
  c6_theorem (V := Bool) true (fun _ => some true) (fun _ => false) (fun v => v)
    ⟨[⟨"d1", "t1", "c1", "cat", "s", some true, none⟩], some [true], true⟩
    ⟨"d9", "t9", "content d9", "cat", "s", none, none⟩ (by decide)

/-- C6 is false as originally stated: with a client present and a provider
that fails on every text, `add_document` still returns success and
appends the document carrying the substituted mock embedding (`false`
here) — no `EmbeddingError` is propagated. -/
theorem c6_counterexample :
    (add_document (V := Bool) true (fun _ => none) (fun _ => false)
        (fun v => v) ⟨[], some [], true⟩
        ⟨"d1", "t", "c", "cat", "s", none, none⟩).1 = true
    ∧ (add_document (V := Bool) true (fun _ => none) (fun _ => false)
        (fun v => v) ⟨[], some [], true⟩
        ⟨"d1", "t", "c", "cat", "s", none, none⟩).2.documents.map
        (fun d => (d.id, d.embedding))
      = [("d1", some false)] := by
  with_unfolding_all decide

/-! ## Claim C4 -/

/-- C4 (the claim is right, the code is wrong): `rebuild_index` is
documented in its own comments as "Combine knowledge base with existing
custom documents", but it reloads the knowledge base into
`self.documents` *before* computing `existing_docs`, so the filter runs
over the just-reloaded list and custom documents are always dropped.
Failing input: add a custom document, then rebuild — the store afterwards
is exactly the 26 knowledge-base documents and the custom document is
gone. -/
theorem c4_theorem :
    ("custom_001" ∈ ((add_document (V := Unit) false (fun _ => none)
        (fun _ => ()) (fun v => v)
        (initService Unit false (fun _ => none) (fun _ => ()) (fun v => v))
        ⟨"custom_001", "Custom Policy", "Custom content", "custom", "src",
          none, none⟩).2.documents.map (fun d => d.id)))
    ∧ ((rebuild_index (V := Unit) false (fun _ => none) (fun _ => ())
        (fun v => v)
        (add_document (V := Unit) false (fun _ => none) (fun _ => ())
          (fun v => v)
          (initService Unit false (fun _ => none) (fun _ => ()) (fun v => v))
          ⟨"custom_001", "Custom Policy", "Custom content", "custom", "src",
            none, none⟩).2).documents.map (fun d => d.id)
      = (knowledgeBase Unit).map (fun d => d.id))
    ∧ ("custom_001" ∉ ((rebuild_index (V := Unit) false (fun _ => none)
        (fun _ => ()) (fun v => v)
        (add_document (V := Unit) false (fun _ => none) (fun _ => ())
          (fun v => v)
          (initService Unit false (fun _ => none) (fun _ => ()) (fun v => v))
          ⟨"custom_001", "Custom Policy", "Custom content", "custom", "src",
            none, none⟩).2).documents.map (fun d => d.id))) := by
  with_unfolding_all decide

/-! ## Claim C2: the lexical fallback computes the specified score -/

theorem tokenize_eq (query : String) : tokenizeQuery query = specTokenize query := by
  unfold tokenizeQuery specTokenize
  rw [List.filter_map]
  rfl

theorem sum_map_add {α : Type} (l : List α) (f g : α → ℚ) :
    (l.map (fun x => f x + g x)).sum = (l.map f).sum + (l.map g).sum := by
  induction l with
  | nil => simp
  | cons x xs ih => simp [ih]; ring

theorem sum_map_ite {α : Type} (l : List α) (p : α → Bool) (c : ℚ) :
    (l.map (fun x => if p x then c else 0)).sum
      = c * ((l.filter p).length : ℚ) := by
  induction l with
  | nil => simp
  | cons x xs ih =>
    cases hp : p x
    · simp [hp, ih]
    · simp [hp, ih]
      ring

theorem sum_map_mul_right {α : Type} (l : List α) (f : α → ℚ) (c : ℚ) :
    (l.map (fun x => f x * c)).sum = c * (l.map f).sum := by
  induction l with
  | nil => simp
  | cons x xs ih => simp [ih]; ring

theorem sum_map_mul_left {α : Type} (l : List α) (f : α → ℚ) (c : ℚ) :
    (l.map (fun x => c * f x)).sum = c * (l.map f).sum := by
  induction l with
  | nil => simp
  | cons x xs ih => simp [ih]; ring

theorem docScore_eq_spec {V : Type} (qws : List (List Char))
    (doc : BankingDocument V) : docScore qws doc = specRawScore qws doc := by
  unfold docScore specRawScore titleContentScore
  rw [sum_map_add (f := fun w =>
      (if substrB w (lowerStr doc.title) then (2 : ℚ) else 0)
        + (countOccur w (lowerStr doc.content) : ℚ) * (1 / 2)),
    sum_map_add (f := fun w =>
      (if substrB w (lowerStr doc.title) then (2 : ℚ) else 0))]
  have hA : ((qws.map (fun w =>
      if substrB w (lowerStr doc.title) then (2 : ℚ) else 0)).sum)
      = specTitleScore qws (lowerStr doc.title) := by
    rw [sum_map_ite]; rfl
  have hB : ((qws.map (fun w =>
      (countOccur w (lowerStr doc.content) : ℚ) * (1 / 2))).sum)
      = specContentScore qws (lowerStr doc.content) := by
    rw [sum_map_mul_right]; rfl
  have hC : ((qws.map (fun w =>
      if 4 < w.length then
        (((splitWs (lowerStr doc.content)).map
          (fun cw => if substrB w cw || substrB cw w then (1 / 5 : ℚ) else 0)).sum)
      else 0)).sum)
      = specPartialScore qws (lowerStr doc.content) := by
    unfold specPartialScore
    rw [← sum_map_mul_left]
    congr 1
    apply List.map_congr_left
    intro w _
    by_cases hw : 4 < w.length
    · rw [if_pos hw, if_pos hw, sum_map_ite]
    · rw [if_neg hw, if_neg hw, mul_zero]
  have hD : ((qws.map (categoryScoreW (lowerStr doc.category))).sum)
      = specCategoryScore qws (lowerStr doc.category) := by
    unfold categoryScoreW
    rw [sum_map_ite]; rfl
  have hE : ((qws.map (synonymScoreW (lowerStr doc.content) (lowerStr doc.title))).sum)
      = specSynonymScore qws (lowerStr doc.content) (lowerStr doc.title) := by
    unfold synonymScoreW specSynonymScore
    rw [← sum_map_mul_left]
    congr 1
    apply List.map_congr_left
    intro w _
    rw [← sum_map_mul_left]
    congr 1
    apply List.map_congr_left
    intro row _
    cases hr : (row.2.map String.toList).contains w with
    | true => rw [if_pos (by simp [hr]), if_pos (by simp [hr]), sum_map_ite]
    | false =>
      rw [if_neg (by simp [hr]), if_neg (by simp [hr])]
      ring
  rw [hA, hB, hC, hD, hE]

theorem specRawScore_nil {V : Type} (doc : BankingDocument V) :
    specRawScore ([] : List (List Char)) doc = 0 := by
  simp [specRawScore, specTitleScore, specContentScore, specPartialScore,
    specCategoryScore, specSynonymScore]

/-- C2: the lexical fallback computes exactly the specified score — the
source's `_mock_retrieval` agrees, on every document list, query and
`top_k`, with the ranking assembled from the specification's wording:
tokenization into lowercase stripped words of length > 2, the five
weighted score components, normalization by `(word_count × 3.0)` clamped
at 1, discarding zero scores, descending sort, `top_k` cut and 1-based
ranks. -/
theorem c2_theorem {V : Type} (docs : List (BankingDocument V)) (query : String)
    (top_k : Nat) :
    mock_retrieval docs query top_k = specLexicalRanking docs query top_k := by
  unfold mock_retrieval specLexicalRanking
  rw [tokenize_eq]
  have hfm : docs.filterMap (fun doc =>
      let score := docScore (specTokenize query) doc
      if 0 < score then
        some (doc,
          if 0 < ((specTokenize query).length : ℚ) * 3 then
            min (score / (((specTokenize query).length : ℚ) * 3)) 1
          else 0)
      else none)
    = docs.filterMap (fun doc =>
      let s := specRawScore (specTokenize query) doc
      if 0 < s then
        some (doc, min (s / (((specTokenize query).length : ℚ) * 3)) 1)
      else none) := by
    apply List.filterMap_congr
    intro doc _
    simp only [docScore_eq_spec]
    by_cases hs : 0 < specRawScore (specTokenize query) doc
    · have hne : specTokenize query ≠ [] := by
        intro he
        rw [he] at hs
        rw [specRawScore_nil] at hs
        exact lt_irrefl 0 hs
      have hlen : 0 < (((specTokenize query).length : ℚ)) := by
        exact_mod_cast List.length_pos.mpr hne
      have h3 : 0 < (((specTokenize query).length : ℚ)) * 3 := by positivity
      simp [hs, h3]
    · simp [hs]
  exact congrArg (fun l => ((sortByDesc (fun p : BankingDocument V × ℚ => p.2) l).take
    top_k).enum.map (fun p => (⟨p.2.1, p.2.2, p.1 + 1⟩ : RetrievalResult V))) hfm

/-! ## Claim C7 -/

set_option maxRecDepth 1000000
set_option maxHeartbeats 16000000

theorem c7_fm_0 :
    List.filterMap (fun doc =>
        let score := docScore c7Words doc
        if 0 < score then
          some (doc,
            if 0 < (c7Words.length : ℚ) * 3 then
              min (score / ((c7Words.length : ℚ) * 3)) 1
            else 0)
        else none)
      c7Chunk0
      =
  [(⟨"doc_001",
     "Personal Loan Requirements",
     "Personal loan requirements include: minimum age of 21 years, maximum age of 65 years at loan maturity, minimum monthly income of $3,000, employment history of at least 2 years, good credit score (minimum 650), debt-to-income ratio below 40%, valid identification documents, proof of income (pay stubs, tax returns), and bank statements for the last 6 months. Loan amounts range from $1,000 to $100,000 with terms from 12 to 84 months. Interest rates vary based on creditworthiness, typically ranging from 5.99% to 24.99% APR.",
     "loans", "lending_policies.pdf", some (), none⟩,
    1),
   (⟨"doc_002",
     "Savings Account Features and Benefits",
     "Our savings accounts offer competitive interest rates, no monthly maintenance fees with minimum balance of $100, online and mobile banking access, ATM network access at 60,000+ locations nationwide, FDIC insurance up to $250,000 per depositor, automatic savings programs, direct deposit capabilities, and 24/7 customer service. Premium savings accounts require $10,000 minimum balance and offer higher interest rates, relationship banking benefits, and waived fees on other services.",
     "accounts", "product_guide.pdf", some (), none⟩,
    1 / 15),
   (⟨"doc_003",
     "Credit Card Application Process",
     "Credit card application process: complete online application with personal information, employment details, and financial information. Required documents include valid government-issued ID, Social Security number, proof of income, and employment verification. Processing time is typically 7-10 business days. Approval factors include credit score (minimum 600 for basic cards, 700+ for premium cards), income verification, debt-to-income ratio, and credit history length. New cardholders receive welcome bonuses, 0% introductory APR for 12 months, and fraud protection.",
     "credit", "credit_policies.pdf", some (), none⟩,
    11 / 45)] := by
  with_unfolding_all rfl

theorem c7_fm_1 :
    List.filterMap (fun doc =>
        let score := docScore c7Words doc
        if 0 < score then
          some (doc,
            if 0 < (c7Words.length : ℚ) * 3 then
              min (score / ((c7Words.length : ℚ) * 3)) 1
            else 0)
        else none)
      c7Chunk1
      =
  [(⟨"doc_004",
     "Investment Account Options",
     "Investment account options include Individual Retirement Accounts (IRA), Roth IRA, 401(k) rollovers, brokerage accounts, mutual funds, ETFs, and certificate of deposits. Minimum opening deposits vary: $500 for IRAs, $1,000 for brokerage accounts, $100 for CDs. Investment advisory services available with certified financial planners. Risk assessment and portfolio recommendations based on age, income, and retirement goals. Online trading platform with research tools, market analysis, and educational resources.",
     "investments", "investment_guide.pdf", some (), none⟩,
    1 / 45),
   (⟨"doc_006",
     "Mortgage Loan Process and Requirements",
     "Mortgage loan process: pre-qualification, application submission, documentation review, property appraisal, underwriting, and closing. Required documents include income verification (W-2s, pay stubs, tax returns), bank statements, credit reports, employment verification, and property documentation. Down payment requirements: conventional loans 5-20%, FHA loans 3.5%, VA loans 0%. Loan terms: 15, 20, or 30 years. Interest rates based on credit score, down payment, and market conditions. Closing costs typically 2-5% of loan amount.",
     "loans", "mortgage_guidelines.pdf", some (), none⟩,
    1)] := by
  with_unfolding_all rfl

theorem c7_fm_2 :
    List.filterMap (fun doc =>
        let score := docScore c7Words doc
        if 0 < score then
          some (doc,
            if 0 < (c7Words.length : ℚ) * 3 then
              min (score / ((c7Words.length : ℚ) * 3)) 1
            else 0)
        else none)
      c7Chunk2
      =
  [(⟨"doc_007",
     "Business Banking Services",
     "Business banking services include business checking accounts, savings accounts, credit lines, merchant services, payroll processing, and cash management solutions. Account requirements: business license, EIN number, articles of incorporation, and business plan. Features: online banking, mobile deposits, wire transfers, ACH processing, and dedicated relationship managers. Loan products: equipment financing, working capital loans, SBA loans, and commercial real estate financing. Treasury management services for larger businesses.",
     "business", "business_services.pdf", some (), none⟩,
    67 / 90),
   (⟨"doc_008",
     "Federal Banking Regulations and Compliance",
     "Key federal banking regulations include FDIC insurance requirements, Truth in Lending Act (TILA), Fair Credit Reporting Act (FCRA), Equal Credit Opportunity Act (ECOA), Bank Secrecy Act (BSA), and Anti-Money Laundering (AML) requirements. Customer identification programs (CIP) required for new accounts. Privacy notices under Gramm-Leach-Bliley Act. Regulation E covers electronic fund transfers. Regulation Z implements TILA for credit disclosures. Compliance monitoring and reporting requirements for suspicious activities.",
     "regulations", "compliance_manual.pdf", some (), none⟩,
    11 / 18),
   (⟨"doc_009",
     "Interest Rates and Fee Structure",
     "Current interest rates: savings accounts 0.50%-2.50% APY, money market accounts 1.00%-3.00% APY, CDs 1.50%-4.50% APY based on term length. Loan rates: personal loans 5.99%-24.99% APR, auto loans 3.49%-15.99% APR, mortgages 6.25%-8.75% APR. Fee structure: overdraft fees $35, ATM fees $3 (out-of-network), wire transfer fees $25 domestic/$50 international, stop payment fees $30, account closure fees $25 (within 90 days).",
     "rates", "rate_sheet.pdf", some (), none⟩,
    13 / 30)] := by
  with_unfolding_all rfl

theorem c7_fm_3 :
    List.filterMap (fun doc =>
        let score := docScore c7Words doc
        if 0 < score then
          some (doc,
            if 0 < (c7Words.length : ℚ) * 3 then
              min (score / ((c7Words.length : ℚ) * 3)) 1
            else 0)
        else none)
      c7Chunk3
      =
  [(⟨"personal_loan_guide",
     "Personal Loan Requirements and Application Process",
     "Personal Loan Requirements: Minimum age 21 years, minimum credit score 650, annual income of $30,000+, debt-to-income ratio below 40%, US citizenship or permanent residency required. Employment verification needed with 2+ years stable employment history. Required documents include: government-issued ID, Social Security card, proof of income (pay stubs, tax returns), bank statements from last 3 months, employment verification letter. Loan amounts range from $5,000 to $50,000 with terms of 2-7 years. Interest rates from 6.99% to 24.99% APR based on creditworthiness. No collateral required. Application can be completed online, by phone, or in-branch. Processing time 1-3 business days for approval, funding within 24 hours of approval. No prepayment penalties. Late payment fee $25. Origination fee 1-5% of loan amount depending on credit profile.",
     "loans", "personal_loan_guide.pdf", some (), none⟩,
    1)] := by
  with_unfolding_all rfl

theorem c7_fm_4 :
    List.filterMap (fun doc =>
        let score := docScore c7Words doc
        if 0 < score then
          some (doc,
            if 0 < (c7Words.length : ℚ) * 3 then
              min (score / ((c7Words.length : ℚ) * 3)) 1
            else 0)
        else none)
      c7Chunk4
      =
  [(⟨"doc_012",
     "Comprehensive Financial Planning Services",
     "Financial planning services include retirement planning, college savings plans (529 plans), estate planning, tax optimization strategies, and wealth management. Our certified financial planners provide personalized consultations, portfolio analysis, risk assessment, and long-term financial goal setting. Services available for accounts with $50,000+ balance. Planning fees: $200 initial consultation, $150/hour ongoing advisory. Includes annual portfolio review, tax planning strategies, insurance analysis, and beneficiary planning.",
     "planning", "financial_planning.pdf", some (), none⟩,
    7 / 90),
   (⟨"doc_013",
     "Small Business Loan Programs",
     "Small business loan programs include SBA 7(a) loans up to $5 million, SBA microloans up to $50,000, equipment financing, commercial real estate loans, and business lines of credit. Requirements: business plan, financial statements, personal guarantee, collateral (varies by loan type), good credit score (680+), and business operating for 2+ years. Interest rates range from 5.5% to 12% based on loan type and creditworthiness. Application process includes business evaluation, financial analysis, and approval timeline of 30-45 days.",
     "business", "sba_loan_guide.pdf", some (), none⟩,
    1),
   (⟨"doc_014",
     "Wealth Management and Private Banking",
     "Private banking services for high-net-worth clients with $1 million+ in assets. Services include dedicated relationship managers, customized investment portfolios, estate planning, tax strategies, trust services, and exclusive banking benefits. Investment options: alternative investments, hedge funds, private equity, real estate investment trusts (REITs), and international markets. Additional perks: priority customer service, waived fees, exclusive events, and concierge services. Minimum account balance requirements and fee structures vary by service level.",
     "wealth", "private_banking_guide.pdf", some (), none⟩,
    7 / 90)] := by
  with_unfolding_all rfl

theorem c7_fm_5 :
    List.filterMap (fun doc =>
        let score := docScore c7Words doc
        if 0 < score then
          some (doc,
            if 0 < (c7Words.length : ℚ) * 3 then
              min (score / ((c7Words.length : ℚ) * 3)) 1
            else 0)
        else none)
      c7Chunk5
      =
  [(⟨"doc_016",
     "Auto Loan Financing Options",
     "Auto loan financing available for new and used vehicles. New car loans: rates from 3.99% to 8.99% APR, terms up to 84 months, up to 100% financing available. Used car loans: rates from 4.99% to 12.99% APR, terms up to 72 months, vehicles up to 7 years old eligible. Required documents: proof of income, insurance coverage, vehicle information, and driver's license. Pre-approval available online. Loan amounts from $5,000 to $100,000. No prepayment penalties. Gap insurance and extended warranty options available.",
     "loans", "auto_loan_guide.pdf", some (), none⟩,
    1),
   (⟨"doc_017",
     "Home Equity Line of Credit (HELOC)",
     "Home Equity Line of Credit provides flexible access to your home's equity. Credit limits up to 80% of home value minus existing mortgage balance. Variable interest rates starting at Prime + 0.5%. Draw period: 10 years with interest-only payments. Repayment period: 15 years with principal and interest payments. No closing costs on lines up to $250,000. Uses include home improvements, debt consolidation, education expenses, and major purchases. Required: home appraisal, income verification, and good credit score (720+).",
     "loans", "heloc_guide.pdf", some (), none⟩,
    47 / 90)] := by
  with_unfolding_all rfl

theorem c7_fm_6 :
    List.filterMap (fun doc =>
        let score := docScore c7Words doc
        if 0 < score then
          some (doc,
            if 0 < (c7Words.length : ℚ) * 3 then
              min (score / ((c7Words.length : ℚ) * 3)) 1
            else 0)
        else none)
      c7Chunk6
      =
  [(⟨"doc_018",
     "Student Loan Services and Refinancing",
     "Student loan services include federal loan servicing, private student loans, and refinancing options. Private loans: competitive rates, flexible repayment terms, no origination fees, and cosigner release options. Refinancing benefits: potentially lower rates, simplified payments, and flexible terms. Eligibility: good credit score, stable income, and graduation from eligible institution. Student checking accounts with no monthly fees, overdraft protection, and financial literacy resources. Parent PLUS loan alternatives available.",
     "loans", "student_loan_services.pdf", some (), none⟩,
    1),
   (⟨"doc_019",
     "Foreign Exchange and International Banking",
     "International banking services include foreign exchange, wire transfers, international trade finance, and multi-currency accounts. Foreign exchange: competitive rates for 50+ currencies, online rate calculator, and currency delivery services. International wire transfers: same-day processing, competitive fees, and real-time tracking. Services for expatriates: international account access, global ATM network, and cross-border investment options. Trade finance: letters of credit, documentary collections, and export financing.",
     "international", "international_services.pdf", some (), none⟩,
    1 / 3),
   (⟨"doc_020",
     "Insurance Products and Protection Services",
     "Insurance products available through banking partnerships: life insurance, disability insurance, home insurance, auto insurance, and identity theft protection. Life insurance options: term life, whole life, and universal life policies. Disability insurance: short-term and long-term coverage for income protection. Identity theft protection includes credit monitoring, fraud alerts, and resolution services. Insurance premium financing available. Bundled packages offer discounts when combined with banking services.",
     "insurance", "insurance_products.pdf", some (), none⟩,
    1 / 3)] := by
  with_unfolding_all rfl

theorem c7_fm_7 :
    List.filterMap (fun doc =>
        let score := docScore c7Words doc
        if 0 < score then
          some (doc,
            if 0 < (c7Words.length : ℚ) * 3 then
              min (score / ((c7Words.length : ℚ) * 3)) 1
            else 0)
        else none)
      c7Chunk7
      =
  [(⟨"doc_021",
     "ATM and Branch Network Services",
     "Extensive ATM network with 75,000+ locations nationwide and international access. Branch services: personal banker consultations, safe deposit boxes, notary services, and cashier's checks. ATM services: cash withdrawal, deposits, balance inquiries, mini-statements, and cardless access via mobile app. International ATM access in 200+ countries. ATM fees: free at network locations, $3 fee for out-of-network usage with reimbursement programs for premium accounts. Extended branch hours and weekend availability at select locations.",
     "services", "branch_atm_guide.pdf", some (), none⟩,
    7 / 90),
   (⟨"doc_022",
     "Credit Building and Repair Services",
     "Credit building services include secured credit cards, credit monitoring, and financial education programs. Secured credit card: $200-$5,000 credit limit based on deposit, graduates to unsecured card after 12 months of good payment history. Credit monitoring: free credit scores, alerts for changes, and identity monitoring. Credit repair consultations available with certified counselors. Financial literacy workshops covering budgeting, credit management, and debt reduction strategies. Young adult programs for building first-time credit.",
     "credit", "credit_building_guide.pdf", some (), none⟩,
    17 / 90),
   (⟨"doc_023",
     "Senior Banking Services and Benefits",
     "Senior banking services for customers 65+: free checking accounts, enhanced fraud protection, large-font statements, and dedicated customer service. Additional benefits: waived fees on cashier's checks, money orders, and safe deposit boxes. Investment services: conservative portfolio options, income-focused strategies, and estate planning assistance. Health Savings Account (HSA) management for medical expenses. Senior discounts on loan rates and insurance products. Educational seminars on retirement planning and Medicare supplements.",
     "senior", "senior_services_guide.pdf", some (), none⟩,
    13 / 45)] := by
  with_unfolding_all rfl

theorem c7_fm_8 :
    List.filterMap (fun doc =>
        let score := docScore c7Words doc
        if 0 < score then
          some (doc,
            if 0 < (c7Words.length : ℚ) * 3 then
              min (score / ((c7Words.length : ℚ) * 3)) 1
            else 0)
        else none)
      c7Chunk8
      =
  [(⟨"doc_024",
     "Environmental and Sustainable Banking",
     "Sustainable banking initiatives include paperless statements, carbon-neutral operations, and green financing options. Green loans: energy-efficient home improvements, solar panel financing, and electric vehicle loans with reduced rates. Environmental impact: renewable energy investments, sustainable business lending, and carbon offset programs. Electronic services: mobile banking, online bill pay, and digital documents to reduce paper usage. Community investments in renewable energy projects and environmental conservation programs.",
     "sustainability", "green_banking_guide.pdf", some (), none⟩,
    11 / 18)] := by
  with_unfolding_all rfl

theorem c7_docs :
    (initService Unit false (fun _ => none) (fun _ => ())
      (fun v => v)).documents = kbEmbeddedDocs := by
  with_unfolding_all rfl

theorem c7_eval :
    ((mock_retrieval kbEmbeddedDocs "personal loan requirements" 3).head?.map
      (fun r => (r.document.category, r.rank))) = some ("loans", 1) := by
  show ((((sortByDesc (fun p : BankingDocument Unit × ℚ => p.2)
      (List.filterMap (fun doc =>
        let score := docScore c7Words doc
        if 0 < score then
          some (doc,
            if 0 < (c7Words.length : ℚ) * 3 then
              min (score / ((c7Words.length : ℚ) * 3)) 1
            else 0)
        else none)
        kbEmbeddedDocs)).take 3).enum.map
      (fun p => (⟨p.2.1, p.2.2, p.1 + 1⟩ : RetrievalResult Unit))).head?.map
      (fun r => (r.document.category, r.rank))) = some ("loans", 1)
  unfold kbEmbeddedDocs
  rw [List.filterMap_append, List.filterMap_append, List.filterMap_append, List.filterMap_append, List.filterMap_append, List.filterMap_append, List.filterMap_append, List.filterMap_append,
    c7_fm_0, c7_fm_1, c7_fm_2, c7_fm_3, c7_fm_4, c7_fm_5, c7_fm_6, c7_fm_7, c7_fm_8]
  with_unfolding_all rfl

/-- C7: with the embedding provider disabled (no client) and the standard
banking knowledge base loaded by initialization, retrieving
"personal loan requirements" with `top_k = 3` yields a non-empty result
list whose rank-1 result's document has category "loans". -/
theorem c7_theorem :
    ∃ l, retrieve_documents (V := Unit) false (fun _ => none) (fun _ => ())
        (fun v => v) (fun _ _ => 0)
        (initService Unit false (fun _ => none) (fun _ => ()) (fun v => v))
        "personal loan requirements" 3 = .ok l
      ∧ l ≠ []
      ∧ l.head?.map (fun r => (r.document.category, r.rank)) = some ("loans", 1) := by
  have hval : ((mock_retrieval
      (initService Unit false (fun _ => none) (fun _ => ()) (fun v => v)).documents
      "personal loan requirements" 3).head?.map
        (fun r => (r.document.category, r.rank))) = some ("loans", 1) := by
    rw [c7_docs]
    exact c7_eval
  refine ⟨mock_retrieval
      (initService Unit false (fun _ => none) (fun _ => ()) (fun v => v)).documents
      "personal loan requirements" 3, rfl, ?_, hval⟩
  intro h
  rw [h] at hval
  simp at hval

/-! ## Claim C3 -/

theorem sentinelScore_neg : sentinelScore < 0 := by
  norm_num [sentinelScore]

theorem buildResults_ok_no_sentinel {V : Type} (docs : List (BankingDocument V)) :
    ∀ (slots : List (ℚ × Int)) (i : Nat) (rs : List (RetrievalResult V)),
      buildResults docs slots i = .ok rs →
      (sentinelScore, (-1 : Int)) ∉ slots := by
  intro slots
  induction slots with
  | nil => intro i rs _ hmem; simp at hmem
  | cons s rest ih =>
    intro i rs hb hmem
    obtain ⟨sim, idx⟩ := s
    unfold buildResults at hb
    rcases List.mem_cons.mp hmem with heq | hmem'
    · obtain ⟨hs, hi⟩ : sentinelScore = sim ∧ (-1 : Int) = idx := by
        simpa [Prod.ext_iff] using heq
      subst hs
      subst hi
      rw [if_pos (by omega : (-1 : Int) < (docs.length : Int))] at hb
      cases hd : pyGet docs (-1) with
      | none => rw [hd] at hb; simp at hb
      | some d =>
        rw [hd] at hb
        simp only [] at hb
        rw [if_neg (fun hc => absurd hc.1 (not_le.mpr sentinelScore_neg))] at hb
        simp at hb
    · split at hb
      · split at hb
        · simp at hb
        · split at hb
          · split at hb
            · exact ih _ _ (by assumption) hmem'
            · simp at hb
          · simp at hb
      · exact ih _ _ hb hmem'

/-- C3 (amended): on an initialized service with a client, when the Vector
Index holds fewer than `top_k` entries the FAISS padding slot (label `-1`,
lowest-float score) is *not* discarded by the code's `doc_idx <
len(documents)` test — a negative label passes it; instead the sentinel's
out-of-range score makes the `RetrievalResult` validation raise, the
`except` catches it, and `retrieve_documents` returns the lexical-fallback
results.  (The original claim — sentinel/out-of-range positions are
discarded and the valid-position search results are returned, possibly
fewer than `top_k` — is refuted by the counterexample.) -/
theorem c3_theorem {V : Type} (apiEmbedOne : String → Option V)
    (mockStream : Nat → V) (normalize : V → V) (dot : V → V → ℚ)
    (st : RAGState V) (query : String) (top_k : Nat) (idx : List V)
    (hidx : st.index = some idx) (hinit : st.initDone = true)
    (hlt : idx.length < top_k) :
    retrieve_documents true apiEmbedOne mockStream normalize dot st query top_k
      = .ok (mock_retrieval st.documents query top_k) := by
  obtain ⟨qe, hg⟩ := generateEmbeddings_single true apiEmbedOne mockStream query
  have hsent : (sentinelScore, (-1 : Int)) ∈ searchIP dot idx (normalize qe) top_k := by
    unfold searchIP
    apply List.mem_append_right
    apply List.mem_replicate.mpr
    refine ⟨?_, rfl⟩
    have hlen : ((sortByDesc (fun s : ℚ × Int => s.1)
        (idx.enum.map (fun p => (dot (normalize qe) p.2, (p.1 : Int))))).take
        top_k).length ≤ idx.length := by
      rw [List.length_take, sortByDesc_length, List.length_map, List.enum_length]
      omega
    omega
  cases hb : buildResults st.documents (searchIP dot idx (normalize qe) top_k) 0 with
  | ok rs => exact absurd hsent (buildResults_ok_no_sentinel st.documents _ 0 rs hb)
  | error e =>
    unfold retrieve_documents
    rw [hidx]
    simp [hinit, hg, hb]

theorem c3_witness :
    retrieve_documents (V := Unit) true (fun _ => some ()) (fun _ => ())
        (fun v => v) (fun _ _ => 1 / 2)
        ⟨[⟨"d1", "t1", "water melon", "cat", "s", some (), none⟩], some [()], true⟩
        "zzz" 2
      = .ok (mock_retrieval
          (⟨[⟨"d1", "t1", "water melon", "cat", "s", some (), none⟩], some [()],
            true⟩ : RAGState Unit).documents "zzz" 2) :=
  c3_theorem (V := Unit) (fun _ => some ()) (fun _ => ()) (fun v => v)
    (fun _ _ => 1 / 2)
    ⟨[⟨"d1", "t1", "water melon", "cat", "s", some (), none⟩], some [()], true⟩
    "zzz" 2 [()] rfl rfl (by decide)

/-- C3 is false as originally stated: with one indexed document and
`top_k = 2`, the claim predicts the single valid-position search result is
returned (a one-element list); the code instead aborts the embedding path
on the sentinel slot and returns the lexical fallback's answer, here the
empty list. -/
theorem c3_counterexample :
    (retrieve_documents (V := Unit) true (fun _ => some ()) (fun _ => ())
        (fun v => v) (fun _ _ => 1 / 2)
        ⟨[⟨"d1", "t1", "water melon", "cat", "s", some (), none⟩], some [()], true⟩
        "zzz" 2).toOption = some []
    ∧ specFilteredResults
        [(⟨"d1", "t1", "water melon", "cat", "s", some (), none⟩ :
          BankingDocument Unit)]
        (searchIP (fun _ _ => 1 / 2) [()] () 2)
      = [⟨⟨"d1", "t1", "water melon", "cat", "s", some (), none⟩, 1 / 2, 1⟩] := by
  constructor
  · with_unfolding_all decide
  · with_unfolding_all decide

/-! ## Claim C9 -/

theorem mock_retrieval_pairwise {V : Type} (docs : List (BankingDocument V))
    (query : String) (top_k : Nat) :
    (mock_retrieval docs query top_k).Pairwise
      (fun a b => b.relevance_score ≤ a.relevance_score) := by
  simp only [mock_retrieval]
  refine List.pairwise_map.mpr ?_
  have hs := sortByDesc_pairwise (fun p : BankingDocument V × ℚ => p.2)
    (docs.filterMap (fun doc =>
      let score := docScore (tokenizeQuery query) doc
      if 0 < score then
        some (doc,
          if 0 < ((tokenizeQuery query).length : ℚ) * 3 then
            min (score / (((tokenizeQuery query).length : ℚ) * 3)) 1
          else 0)
      else none))
  have ht := List.Pairwise.sublist (List.take_sublist top_k _) hs
  have hmap : ((sortByDesc (fun p : BankingDocument V × ℚ => p.2)
        (docs.filterMap (fun doc =>
          let score := docScore (tokenizeQuery query) doc
          if 0 < score then
            some (doc,
              if 0 < ((tokenizeQuery query).length : ℚ) * 3 then
                min (score / (((tokenizeQuery query).length : ℚ) * 3)) 1
              else 0)
          else none))).take top_k)
      = ((sortByDesc (fun p : BankingDocument V × ℚ => p.2)
        (docs.filterMap (fun doc =>
          let score := docScore (tokenizeQuery query) doc
          if 0 < score then
            some (doc,
              if 0 < ((tokenizeQuery query).length : ℚ) * 3 then
                min (score / (((tokenizeQuery query).length : ℚ) * 3)) 1
              else 0)
          else none))).take top_k).enum.map Prod.snd := by
    simp [List.enum, List.enumFrom_map_snd]
  rw [hmap] at ht
  exact (List.pairwise_map.mp ht).imp (fun h => h)

theorem mock_retrieval_rank {V : Type} (docs : List (BankingDocument V))
    (query : String) (top_k : Nat) (j : Nat)
    (h : j < (mock_retrieval docs query top_k).length) :
    ((mock_retrieval docs query top_k).get ⟨j, h⟩).rank = j + 1 := by
  have h' : j < (mock_retrieval docs query top_k).length := h
  simp only [mock_retrieval, List.length_map, List.enum,
    List.enumFrom_length] at h'
  simp only [mock_retrieval, List.get_eq_getElem, List.getElem_map,
    List.enum, List.getElem_enumFrom]
  omega

theorem buildResults_ok_valid {V : Type} (docs : List (BankingDocument V)) :
    ∀ (slots : List (ℚ × Int)) (i : Nat) (rs : List (RetrievalResult V)),
      buildResults docs slots i = .ok rs →
      (∀ s ∈ slots, 0 ≤ s.2 ∧ s.2 < (docs.length : Int)) →
      rs.map (fun r => r.relevance_score) = slots.map (fun s => s.1)
      ∧ ∀ j, ∀ hj : j < rs.length, (rs.get ⟨j, hj⟩).rank = i + j + 1 := by
  intro slots
  induction slots with
  | nil =>
    intro i rs hb _
    simp only [buildResults] at hb
    cases hb
    exact ⟨rfl, fun j hj => by simp at hj⟩
  | cons s rest ih =>
    intro i rs hb hval
    obtain ⟨sim, idx⟩ := s
    have hv := hval (sim, idx) (List.mem_cons_self _ _)
    unfold buildResults at hb
    rw [if_pos hv.2] at hb
    have htn : idx.toNat < docs.length := by omega
    have hget : pyGet docs idx = some (docs.get ⟨idx.toNat, htn⟩) := by
      unfold pyGet
      rw [if_pos hv.1]
      exact List.get?_eq_get htn
    rw [hget] at hb
    simp only [] at hb
    by_cases hvv : 0 ≤ sim ∧ sim ≤ 1
    · rw [if_pos hvv] at hb
      cases hrest : buildResults docs rest (i + 1) with
      | error e => rw [hrest] at hb; simp at hb
      | ok rs' =>
        rw [hrest] at hb
        simp only [] at hb
        cases hb
        obtain ⟨ih1, ih2⟩ := ih (i + 1) rs' hrest
          (fun s hs => hval s (List.mem_cons_of_mem _ hs))
        constructor
        · simp [ih1]
        · intro j hj
          cases j with
          | zero => simp
          | succ j' =>
            have hj' : j' < rs'.length := by simpa using hj
            have := ih2 j' hj'
            simp only [List.get_eq_getElem, List.getElem_cons_succ] at this ⊢
            rw [this]
            omega
    · rw [if_neg hvv] at hb
      simp at hb

theorem searchIP_no_pad {V : Type} (dot : V → V → ℚ) (idx : List V) (q : V)
    (k : Nat)
    (h : (sentinelScore, (-1 : Int)) ∉ searchIP dot idx q k) :
    searchIP dot idx q k
      = (sortByDesc (fun s : ℚ × Int => s.1)
          (idx.enum.map (fun p => (dot q p.2, (p.1 : Int))))).take k := by
  simp only [searchIP] at h ⊢
  by_cases hp : k - ((sortByDesc (fun s : ℚ × Int => s.1)
      (idx.enum.map (fun p => (dot q p.2, (p.1 : Int))))).take k).length = 0
  · rw [hp]
    simp
  · exfalso
    apply h
    apply List.mem_append_right
    exact List.mem_replicate.mpr ⟨hp, rfl⟩

theorem searchIP_top_valid {V : Type} (dot : V → V → ℚ) (idx : List V) (q : V)
    (k : Nat) (s : ℚ × Int)
    (hs : s ∈ (sortByDesc (fun s : ℚ × Int => s.1)
      (idx.enum.map (fun p => (dot q p.2, (p.1 : Int))))).take k) :
    0 ≤ s.2 ∧ s.2 < (idx.length : Int) := by
  have hs1 := List.mem_of_mem_take hs
  have hs2 := (mem_sortByDesc _ _ _).mp hs1
  obtain ⟨p, hp, rfl⟩ := List.mem_map.mp hs2
  have hp' := List.mem_enum_iff_get?.mp hp
  have hlt := (List.get?_eq_some.mp hp').1
  constructor
  · exact Int.ofNat_nonneg _
  · have hcast : (p.1 : Int) < (idx.length : Int) := by exact_mod_cast hlt
    exact hcast

/-- C9 (amended): on an initialized *aligned* service
(`document_count == index_size`), every list `retrieve_documents` returns —
via the embedding path or the lexical fallback — has non-increasing
`relevance_score` and `rank` equal to the 1-based position.  (Without the
alignment hypothesis the original claim fails: on a reachable misaligned
state the embedding path's position filter skips a slot and the kept
result keeps its slot-based rank, so the first element's rank can be 2 —
see the counterexample.) -/
theorem c9_theorem {V : Type} (client : Bool) (apiEmbedOne : String → Option V)
    (mockStream : Nat → V) (normalize : V → V) (dot : V → V → ℚ)
    (st : RAGState V) (query : String) (top_k : Nat)
    (l : List (RetrievalResult V))
    (halign : aligned st)
    (hok : retrieve_documents client apiEmbedOne mockStream normalize dot
      st query top_k = .ok l) :
    l.Pairwise (fun a b => b.relevance_score ≤ a.relevance_score)
    ∧ ∀ j, ∀ hj : j < l.length, (l.get ⟨j, hj⟩).rank = j + 1 := by
  unfold retrieve_documents at hok
  cases hidx : st.index with
  | none => rw [hidx] at hok; simp at hok
  | some idx =>
    rw [hidx] at hok
    simp only [] at hok
    have hlen : st.documents.length = idx.length := by
      simpa [aligned, indexSize, hidx] using halign
    cases hinit : st.initDone with
    | false => rw [hinit] at hok; simp at hok
    | true =>
      rw [hinit] at hok
      simp only [Bool.not_true, Bool.false_eq_true, if_false] at hok
      cases client with
      | false =>
        simp only [Bool.not_false, if_true] at hok
        simp only [Except.ok.injEq] at hok
        subst hok
        exact ⟨mock_retrieval_pairwise st.documents query top_k,
          fun j hj => mock_retrieval_rank st.documents query top_k j hj⟩
      | true =>
        simp only [Bool.not_true, Bool.false_eq_true, if_false] at hok
        obtain ⟨qe, hg⟩ := generateEmbeddings_single true apiEmbedOne
          mockStream query
        rw [hg] at hok
        simp only [] at hok
        cases hb : buildResults st.documents
            (searchIP dot idx (normalize qe) top_k) 0 with
        | error e =>
          rw [hb] at hok
          simp only [Except.ok.injEq] at hok
          subst hok
          exact ⟨mock_retrieval_pairwise st.documents query top_k,
            fun j hj => mock_retrieval_rank st.documents query top_k j hj⟩
        | ok rs =>
          rw [hb] at hok
          simp only [Except.ok.injEq] at hok
          subst hok
          have hnos := buildResults_ok_no_sentinel st.documents _ 0 rs hb
          have hslots := searchIP_no_pad dot idx (normalize qe) top_k hnos
          have hvalid : ∀ s ∈ searchIP dot idx (normalize qe) top_k,
              0 ≤ s.2 ∧ s.2 < (st.documents.length : Int) := by
            intro s hs
            rw [hslots] at hs
            have hv := searchIP_top_valid dot idx (normalize qe) top_k s hs
            refine ⟨hv.1, ?_⟩
            rw [hlen]
            exact hv.2
          obtain ⟨hmap, hrank⟩ := buildResults_ok_valid st.documents _ 0 rs
            hb hvalid
          constructor
          · have hsorted : (searchIP dot idx (normalize qe) top_k).Pairwise
                (fun a b => b.1 ≤ a.1) := by
              rw [hslots]
              exact List.Pairwise.sublist (List.take_sublist _ _)
                (sortByDesc_pairwise _ _)
            have h1 : ((searchIP dot idx (normalize qe) top_k).map
                (fun s => s.1)).Pairwise (fun a b => b ≤ a) :=
              List.Pairwise.map _ (fun a b h => h) hsorted
            rw [← hmap] at h1
            exact (List.pairwise_map.mp h1).imp (fun h => h)
          · intro j hj
            have hr := hrank j hj
            omega

theorem c9_witness :
    (mock_retrieval
        [(⟨"d1", "t1", "c1", "cat", "s", some (), none⟩ : BankingDocument Unit)]
        "hello" 1).Pairwise
      (fun a b => b.relevance_score ≤ a.relevance_score)
    ∧ ∀ j, ∀ hj : j < (mock_retrieval
        [(⟨"d1", "t1", "c1", "cat", "s", some (), none⟩ : BankingDocument Unit)]
        "hello" 1).length,
      ((mock_retrieval
        [(⟨"d1", "t1", "c1", "cat", "s", some (), none⟩ : BankingDocument Unit)]
        "hello" 1).get ⟨j, hj⟩).rank = j + 1 :=
  c9_theorem (V := Unit) false (fun _ => none) (fun _ => ()) (fun v => v)
    (fun _ _ => 0)
    ⟨[⟨"d1", "t1", "c1", "cat", "s", some (), none⟩], some [()], true⟩
    "hello" 1
    (mock_retrieval
      [(⟨"d1", "t1", "c1", "cat", "s", some (), none⟩ : BankingDocument Unit)]
      "hello" 1)
    (by decide) rfl

/-- C9 is false as originally stated: on a misaligned initialized state
(one document, two indexed vectors — reachable by emptying the store via
`remove_document` and then adding a document), the embedding path's
position filter skips the top slot (its position 1 is outside the store)
and the surviving result keeps its slot-based rank, so the first and only
element of the returned list has rank 2, not 1. -/
theorem c9_counterexample :
    ¬ (∀ l : List (RetrievalResult Nat),
        retrieve_documents true (fun _ => some 99) (fun _ => 0) (fun v => v)
          (fun _ v => if v = 11 then 9 / 10 else 1 / 2)
          ⟨[⟨"d1", "t1", "c1", "cat", "s", some 10, none⟩], some [10, 11], true⟩
          "q" 2 = .ok l →
        ∀ j, ∀ hj : j < l.length, (l.get ⟨j, hj⟩).rank = j + 1) := by
  intro hclaim
  have heval : retrieve_documents true (fun _ => some 99) (fun _ => 0)
      (fun v => v) (fun _ v => if v = 11 then 9 / 10 else 1 / 2)
      ⟨[⟨"d1", "t1", "c1", "cat", "s", some 10, none⟩], some [10, 11], true⟩
      "q" 2
      = .ok [⟨⟨"d1", "t1", "c1", "cat", "s", some 10, none⟩, 1 / 2, 2⟩] := by
    with_unfolding_all rfl
  have h0 := hclaim _ heval 0 (by simp)
  simp at h0

end BankingRAG
